import Mathlib

/-!
Shallow embedding of the ai-midimacros configuration pipeline:
the schema model and validator (tools/config_validator), the cache
compiler (tools/cache_builder, tools/cache_format), and the runtime
reload coordination (runtime/core: config.rs, app.rs, watch.rs,
runtime.rs, executor/mod.rs, midi/mod.rs, console/mod.rs).

Rust `HashMap<String, _>` fields are modelled as association lists
whose list order stands for the map's (unspecified, per-instance
randomized) iteration order; all access goes through the lookup and
insert helpers below, which mirror `HashMap::get` / `HashMap::insert`
(insert replaces the value for an existing key and returns the old
value).  Machine integers (u8, u32, u64, usize) are modelled as `Nat`;
no arithmetic in the translated code can overflow the source types for
the inputs the claims quantify over.  External effects (file reads,
`SystemTime::now()`, `serde_yaml` parsing, `bincode` serialization,
key injection, sleeping) are modelled as explicit parameters of the
functions that use them.
-/

namespace MidiMacros

/-- Lookup in an association list, mirroring `HashMap::get`: the first
binding of the key wins (the lists we build never hold a key twice). -/
def hmLookup {κ α : Type} [DecidableEq κ] : List (κ × α) → κ → Option α
  | [], _ => none
  | p :: rest, k => if p.1 = k then some p.2 else hmLookup rest k

/-- Remove every binding of a key from an association list. -/
def hmErase {κ α : Type} [DecidableEq κ] (m : List (κ × α)) (k : κ) : List (κ × α) :=
  m.filter (fun p => !(p.1 == k))

/-- Mirror of `HashMap::insert`: returns the previous value bound to the
key (if any) together with the updated map. -/
def hmInsert {κ α : Type} [DecidableEq κ] (m : List (κ × α)) (k : κ) (v : α) :
    Option α × List (κ × α) :=
  (hmLookup m k, (k, v) :: hmErase m k)

/-- Mirror of `HashMap::contains_key`. -/
def hmContains {κ α : Type} [DecidableEq κ] (m : List (κ × α)) (k : κ) : Bool :=
  (hmLookup m k).isSome

/-- Drop leading and trailing whitespace from a character list. -/
def trimList (l : List Char) : List Char :=
  ((l.dropWhile Char.isWhitespace).reverse.dropWhile Char.isWhitespace).reverse

/-- Mirror of `str::trim` (whitespace stripped from both ends),
implemented over the character list so that it evaluates inside the
kernel. -/
def strTrim (s : String) : String := String.mk (trimList s.data)

/-- Split a character list at every occurrence of a separator. -/
def splitCharAux (sep : Char) : List Char → List Char → List (List Char)
  | [], acc => [acc.reverse]
  | c :: rest, acc =>
    if c = sep then acc.reverse :: splitCharAux sep rest []
    else splitCharAux sep rest (c :: acc)

/-- Mirror of `str::split` on a single-character pattern. -/
def strSplitChar (s : String) (sep : Char) : List String :=
  (splitCharAux sep s.data []).map String.mk

/-! ## Schema model (tools/config_validator/src/schema.rs) -/

inductive MacroStatus
  | Draft
  | Ready
deriving DecidableEq

inductive MidiTriggerType
  | Note
deriving DecidableEq

/-- `MidiTrigger` from schema.rs; `number` is a `u8` in the source. -/
structure MidiTrigger where
  type : MidiTriggerType
  number : Nat
deriving DecidableEq

inductive MacroStep
  | Keystroke (keys : List String)
  | Pause (ms : Nat)
deriving DecidableEq

structure Macro where
  status : MacroStatus
  description : Option String
  tags : List String
  trigger : Option MidiTrigger
  steps : List MacroStep
deriving DecidableEq

inductive Action
  | MacroRef (ref_ : String)
  | ScriptRef (ref_ : String)
deriving DecidableEq

structure Widget where
  id : String
  action : Option Action
  tap_behavior : Option String
deriving DecidableEq

structure Page where
  name : String
  widgets : List Widget
deriving DecidableEq

structure Device where
  hardware_id : Option String
  pages : List Page
deriving DecidableEq

inductive Script
  | Body (body : String)
  | Inline (body : String)
deriving DecidableEq

/-- `Config` from schema.rs.  `devices`, `macros` and `scripts` are
`HashMap<String, _>` in the source: the association lists carry the
map's iteration order, and hold each key at most once. -/
structure Config where
  version : Nat
  devices : List (String × Device)
  macros : List (String × Macro)
  scripts : List (String × Script)
deriving DecidableEq

/-! ## Validator (tools/config_validator/src/validation.rs) -/

structure Location where
  line : Nat
  column : Nat
deriving DecidableEq

inductive Severity
  | Error
  | Warning
  | Info
deriving DecidableEq

structure ValidationIssue where
  path : String
  message : String
  location : Option Location
  severity : Severity
deriving DecidableEq

/-- `ValidationIssue::new` (location starts out `None`). -/
def ValidationIssue.new (path message : String) (severity : Severity) : ValidationIssue :=
  { path := path, message := message, location := none, severity := severity }

/-- Mirror of `adjust_severity_for_macro` in validation.rs: an Error
inside a Draft macro is downgraded to Warning. -/
def adjust_severity_for_draft (status : MacroStatus) (severity : Severity) : Severity :=
  if status == MacroStatus.Draft && severity == Severity.Error then
    Severity.Warning
  else
    severity

/-- The `match device.hardware_id.as_deref()` block of `validate_config`,
threading the `hardware_ids : HashMap<String, String>` accumulator. -/
def deviceHwCheck (hardware_ids : List (String × String)) (device_name : String)
    (device : Device) : List (String × String) × List ValidationIssue :=
  let path := "devices." ++ device_name
  match device.hardware_id with
  | some id =>
    if !((strTrim id).isEmpty) then
      let inserted := hmInsert hardware_ids (strTrim id) device_name
      match inserted.1 with
      | some previous =>
        (inserted.2,
          [ValidationIssue.new (path ++ ".hardware_id")
            ("Duplicate hardware_id `" ++ strTrim id ++ "` also used by `" ++ previous ++ "`")
            Severity.Error])
      | none => (inserted.2, [])
    else
      (hardware_ids,
        [ValidationIssue.new (path ++ ".hardware_id") "hardware_id must not be empty"
          Severity.Error])
  | none =>
    (hardware_ids,
      [ValidationIssue.new (path ++ ".hardware_id") "hardware_id is required" Severity.Error])

/-- The `if let Some(action)` block of the widget loop. -/
def widgetActionCheck (cfg : Config) (widget_path : String) : Action → List ValidationIssue
  | Action.MacroRef ref_ =>
    if !(hmContains cfg.macros ref_) then
      [ValidationIssue.new widget_path ("References undefined macro `" ++ ref_ ++ "`")
        Severity.Error]
    else
      match hmLookup cfg.macros ref_ with
      | some mac =>
        if mac.status != MacroStatus.Ready then
          [ValidationIssue.new widget_path
            ("References macro `" ++ ref_ ++ "` that is not marked ready and will not be compiled")
            Severity.Warning]
        else []
      | none => []
  | Action.ScriptRef ref_ =>
    if !(hmContains cfg.scripts ref_) then
      [ValidationIssue.new widget_path ("References undefined script `" ++ ref_ ++ "`")
        Severity.Error]
    else []

/-- The widget loop of `validate_config`, threading the per-page
`widget_ids : HashSet<String>` (modelled as the list of ids seen). -/
def widgetsCheck (cfg : Config) (path : String) (page_index : Nat) :
    List String → List Widget → List ValidationIssue
  | _, [] => []
  | seen, w :: rest =>
    let widget_path := path ++ ".pages[" ++ toString page_index ++ "].widgets." ++ w.id
    (if seen.contains w.id then
      [ValidationIssue.new widget_path "Duplicate widget id within page" Severity.Error]
    else []) ++
    (match w.action with
     | some action => widgetActionCheck cfg widget_path action
     | none => []) ++
    widgetsCheck cfg path page_index (w.id :: seen) rest

/-- The page loop (`device.pages.iter().enumerate()`). -/
def pagesCheck (cfg : Config) (path : String) (pages : List Page) : List ValidationIssue :=
  (pages.enum.map (fun q => widgetsCheck cfg path q.1 [] q.2.widgets)).flatten

/-- The device loop of `validate_config`, threading `hardware_ids`. -/
def devicesCheck (cfg : Config) :
    List (String × String) → List (String × Device) → List ValidationIssue
  | _, [] => []
  | hardware_ids, d :: rest =>
    let path := "devices." ++ d.1
    let hw := deviceHwCheck hardware_ids d.1 d.2
    hw.2 ++ pagesCheck cfg path d.2.pages ++ devicesCheck cfg hw.1 rest

/-- The `if let Some(trigger)` / `else if` block of the macro loop,
threading `note_map : HashMap<u8, String>`. -/
def macroTriggerCheck (note_map : List (Nat × String)) (macro_name : String) (m : Macro) :
    List (Nat × String) × List ValidationIssue :=
  let macro_path := "macros." ++ macro_name
  match m.trigger with
  | some trigger =>
    match trigger.type with
    | MidiTriggerType.Note =>
      if 127 < trigger.number then
        (note_map,
          [ValidationIssue.new (macro_path ++ ".trigger")
            "Note trigger number must be between 0 and 127"
            (adjust_severity_for_draft m.status Severity.Error)])
      else
        let inserted := hmInsert note_map trigger.number macro_name
        match inserted.1 with
        | some existing =>
          (inserted.2,
            [ValidationIssue.new (macro_path ++ ".trigger")
              ("Note " ++ toString trigger.number ++ " already assigned to macro `" ++
                existing ++ "`")
              Severity.Warning])
        | none => (inserted.2, [])
  | none =>
    if m.status == MacroStatus.Ready then
      (note_map,
        [ValidationIssue.new (macro_path ++ ".trigger") "Ready macro missing trigger"
          Severity.Warning])
    else (note_map, [])

/-- Whether a step trips the per-step validation of `validate_config`
(keystroke with no keys or a whitespace-only key; pause of 0 ms). -/
def stepInvalid : MacroStep → Bool
  | MacroStep.Keystroke keys => keys.isEmpty || keys.any (fun k => (strTrim k).isEmpty)
  | MacroStep.Pause ms => ms == 0

/-- The step loop (`macro_def.steps.iter().enumerate()`). -/
def macroStepsCheck (macro_name : String) (m : Macro) : List ValidationIssue :=
  (m.steps.enum.map (fun q =>
    match q.2 with
    | MacroStep.Keystroke keys =>
      if keys.isEmpty || keys.any (fun k => (strTrim k).isEmpty) then
        [ValidationIssue.new ("macros." ++ macro_name ++ ".steps[" ++ toString q.1 ++ "]")
          "Keystroke step must define at least one non-empty key"
          (adjust_severity_for_draft m.status Severity.Error)]
      else []
    | MacroStep.Pause ms =>
      if ms == 0 then
        [ValidationIssue.new ("macros." ++ macro_name ++ ".steps[" ++ toString q.1 ++ "]")
          "Pause duration must be greater than zero"
          (adjust_severity_for_draft m.status Severity.Error)]
      else [])).flatten

/-- The macro loop of `validate_config`, threading `note_map`. -/
def macrosCheck : List (Nat × String) → List (String × Macro) → List ValidationIssue
  | _, [] => []
  | note_map, p :: rest =>
    let trig := macroTriggerCheck note_map p.1 p.2
    trig.2 ++ macroStepsCheck p.1 p.2 ++ macrosCheck trig.1 rest

/-- The `note_map` accumulator state after the macro loop has processed
a prefix of the macros map. -/
def noteMapAfter (note_map : List (Nat × String)) : List (String × Macro) → List (Nat × String)
  | [] => note_map
  | p :: rest => noteMapAfter (macroTriggerCheck note_map p.1 p.2).1 rest

/-- The script loop of `validate_config`. -/
def scriptsCheck (scripts : List (String × Script)) : List ValidationIssue :=
  (scripts.map (fun s =>
    let empty :=
      match s.2 with
      | Script.Body body => (strTrim body).isEmpty
      | Script.Inline body => (strTrim body).isEmpty
    if empty then
      [ValidationIssue.new ("scripts." ++ s.1) "Script body must not be empty" Severity.Error]
    else [])).flatten

/-- The leading `config.version != 1` check. -/
def versionCheck (cfg : Config) : List ValidationIssue :=
  if cfg.version != 1 then
    [ValidationIssue.new "version"
      ("Unsupported schema version " ++ toString cfg.version ++ " (expected 1)")
      Severity.Error]
  else []

/-- Index of the first occurrence of `needle` in `l` (substring search
over characters), mirroring `str::find` / `str::contains`. -/
def firstIndexOf (needle : List Char) : List Char → Nat → Option Nat
  | [], i => if needle.isEmpty then some i else none
  | c :: rest, i =>
    if needle.isPrefixOf (c :: rest) then some i else firstIndexOf needle rest (i + 1)

/-- `find_location`: take the last dotted segment of the path and do a
best-effort line-by-line substring search over the source text.  The
source measures the column in bytes; the model measures it in
characters, which agrees on ASCII sources. -/
def find_location (source path : String) : Option Location :=
  match (strSplitChar path '.').getLast? with
  | none => none
  | some needle =>
    let rec go : List (Nat × String) → Option Location
      | [] => none
      | q :: rest =>
        match firstIndexOf needle.data q.2.data 0 with
        | some c => some { line := q.1 + 1, column := c + 1 }
        | none => go rest
    go (strSplitChar source '\n').enum

/-- `attach_locations`: fill in the location of every issue. -/
def attach_locations (source : String) (issues : List ValidationIssue) :
    List ValidationIssue :=
  issues.map (fun i => { i with location := find_location source i.path })

/-- `validate_config` (validation.rs): version check, device loop,
macro loop, script loop, in push order, then location attachment. -/
def validate_config (cfg : Config) (source : String) : List ValidationIssue :=
  attach_locations source
    (versionCheck cfg ++ devicesCheck cfg [] cfg.devices ++ macrosCheck [] cfg.macros ++
      scriptsCheck cfg.scripts)

/-! ## Cache format (tools/cache_format/src/lib.rs) -/

namespace CacheFmt

/-- `CACHE_VERSION`. -/
def CACHE_VERSION : Nat := 1

structure CacheHeader where
  version : Nat
  source_hash : Nat
  generated_at : Nat
deriving DecidableEq

inductive MidiTriggerType
  | Note
deriving DecidableEq

structure MidiTrigger where
  type : MidiTriggerType
  number : Nat
deriving DecidableEq

inductive MacroStep
  | Keystroke (keys : List String)
  | Pause (ms : Nat)
deriving DecidableEq

structure MacroEntry where
  id : String
  description : Option String
  tags : List String
  trigger : Option MidiTrigger
  steps : List MacroStep
deriving DecidableEq

inductive WidgetAction
  | MacroRef (id : String)
  | ScriptRef (id : String)
deriving DecidableEq

structure LayoutWidget where
  id : String
  tap_behavior : Option String
  action : Option WidgetAction
deriving DecidableEq

structure LayoutPage where
  name : String
  widgets : List LayoutWidget
deriving DecidableEq

structure DeviceLayout where
  id : String
  hardware_id : Option String
  pages : List LayoutPage
deriving DecidableEq

structure CacheBundle where
  header : CacheHeader
  devices : List DeviceLayout
  macros : List MacroEntry
deriving DecidableEq

end CacheFmt

/-! ## Cache builder (tools/cache_builder/src/lib.rs) -/

/-- Stand-in for the external `xxhash_rust::xxh3::xxh3_64` content hash:
any fixed deterministic function of the source text into 64 bits; the
claims depend only on it being a function of the bytes, never on its
values. -/
def xxh3_64 (s : String) : Nat :=
  s.data.foldl (fun h c => (h * 31 + c.toNat) % (2 ^ 64)) 0

/-- `ConfigError` (config_validator/src/lib.rs): a `serde_yaml` parse
error, carried as its message. -/
inductive ConfigError
  | Parse (msg : String)
deriving DecidableEq

inductive BuildError
  | Io (msg : String)
  | Parse (e : ConfigError)
  | Validation (issues : List ValidationIssue)
  | Serialize (msg : String)
deriving DecidableEq

structure BuildOutput where
  bundle : CacheFmt.CacheBundle
  diagnostics : List ValidationIssue
deriving DecidableEq

/-- `convert_macro_step`. -/
def convert_macro_step : MacroStep → CacheFmt.MacroStep
  | MacroStep.Keystroke keys => CacheFmt.MacroStep.Keystroke keys
  | MacroStep.Pause ms => CacheFmt.MacroStep.Pause ms

/-- `convert_trigger`. -/
def convert_trigger (trigger : MidiTrigger) : CacheFmt.MidiTrigger :=
  { type := match trigger.type with
      | MidiTriggerType.Note => CacheFmt.MidiTriggerType.Note,
    number := trigger.number }

/-- `convert_action`. -/
def convert_action : Action → CacheFmt.WidgetAction
  | Action.MacroRef ref_ => CacheFmt.WidgetAction.MacroRef ref_
  | Action.ScriptRef ref_ => CacheFmt.WidgetAction.ScriptRef ref_

/-- `convert_widgets`. -/
def convert_widgets (widgets : List Widget) : List CacheFmt.LayoutWidget :=
  widgets.map (fun w =>
    { id := w.id, tap_behavior := w.tap_behavior, action := w.action.map convert_action })

/-- `convert_pages`. -/
def convert_pages (pages : List Page) : List CacheFmt.LayoutPage :=
  pages.map (fun p => { name := p.name, widgets := convert_widgets p.widgets })

/-- `convert_devices`: collect the map entries and sort them by device
id (`list.sort_by(|(a, _), (b, _)| a.cmp(b))`). -/
def convert_devices (devices : List (String × Device)) : List CacheFmt.DeviceLayout :=
  (devices.mergeSort (fun a b => a.1 ≤ b.1)).map (fun d =>
    { id := d.1, hardware_id := d.2.hardware_id, pages := convert_pages d.2.pages })

/-- `MacroEntry` built from one Ready macro of the config map. -/
def toMacroEntry (p : String × Macro) : CacheFmt.MacroEntry :=
  { id := p.1
    description := p.2.description
    tags := p.2.tags
    trigger := p.2.trigger.map convert_trigger
    steps := p.2.steps.map convert_macro_step }

/-- `assemble_bundle`.  `now` models the `SystemTime::now()` call:
seconds since the epoch at the moment the builder runs. -/
def assemble_bundle (config : Config) (source : String) (now : Nat) : CacheFmt.CacheBundle :=
  { header :=
      { version := CacheFmt.CACHE_VERSION
        source_hash := xxh3_64 source
        generated_at := now }
    devices := convert_devices config.devices
    macros := (config.macros.filter (fun p => p.2.status == MacroStatus.Ready)).map toMacroEntry }

/-- `build_from_config`: validate, fail on any Error diagnostic,
otherwise assemble (the source binds the diagnostic list once; it is
inlined here). -/
def build_from_config (config : Config) (source : String) (now : Nat) :
    Except BuildError BuildOutput :=
  if (validate_config config source).any (fun issue => issue.severity == Severity.Error) then
    Except.error (BuildError.Validation (validate_config config source))
  else
    Except.ok { bundle := assemble_bundle config source now
                diagnostics := validate_config config source }

/-- `build_from_str`.  `parse` models `parse_config_str` (the external
`serde_yaml` deserializer): any function producing the parsed map in
some iteration order, or a parse error. -/
def build_from_str (parse : String → Except ConfigError Config) (content : String)
    (now : Nat) : Except BuildError BuildOutput :=
  match parse content with
  | Except.error e => Except.error (BuildError.Parse e)
  | Except.ok config => build_from_config config content now

/-- `build_from_path`.  `content` is what `fs::read_to_string` returned
for the watched file; `ser` models the external `bincode::serialize`
(which may fail). -/
def build_from_path (parse : String → Except ConfigError Config)
    (ser : CacheFmt.CacheBundle → Except String (List Nat)) (content : String) (now : Nat) :
    Except BuildError (BuildOutput × List Nat) :=
  match build_from_str parse content now with
  | Except.error e => Except.error e
  | Except.ok output =>
    match ser output.bundle with
    | Except.error msg => Except.error (BuildError.Serialize msg)
    | Except.ok bytes => Except.ok (output, bytes)

/-! ## Runtime config loading (runtime/core/src/config.rs) -/

inductive DiagnosticSeverity
  | Error
  | Warning
  | Info
deriving DecidableEq

/-- `impl From<Severity> for DiagnosticSeverity`. -/
def DiagnosticSeverity.ofSeverity : Severity → DiagnosticSeverity
  | Severity.Error => DiagnosticSeverity.Error
  | Severity.Warning => DiagnosticSeverity.Warning
  | Severity.Info => DiagnosticSeverity.Info

structure Diagnostic where
  path : String
  message : String
  location : Option Location
  severity : DiagnosticSeverity
deriving DecidableEq

/-- `convert_issue`. -/
def convert_issue (issue : ValidationIssue) : Diagnostic :=
  { path := issue.path
    message := issue.message
    location := issue.location
    severity := DiagnosticSeverity.ofSeverity issue.severity }

/-- `convert_issues`. -/
def convert_issues (issues : List ValidationIssue) : List Diagnostic :=
  issues.map convert_issue

structure LoadedConfig where
  path : Option String
  config : Config
  diagnostics : List Diagnostic
deriving DecidableEq

inductive LoadError
  | Io (msg : String)
  | Parse (e : ConfigError)
  | Validation (diags : List Diagnostic)
deriving DecidableEq

/-- `load_from_str` (the diagnostic list is bound once in the source
and inlined here). -/
def load_from_str (parse : String → Except ConfigError Config) (content : String) :
    Except LoadError LoadedConfig :=
  match parse content with
  | Except.error e => Except.error (LoadError.Parse e)
  | Except.ok config =>
    if (convert_issues (validate_config config content)).any
        (fun diag => diag.severity == DiagnosticSeverity.Error) then
      Except.error (LoadError.Validation (convert_issues (validate_config config content)))
    else
      Except.ok { path := none, config := config
                  diagnostics := convert_issues (validate_config config content) }

/-- `load_from_path`: read the file (content supplied), load, and
record the path. -/
def load_from_path (parse : String → Except ConfigError Config) (path content : String) :
    Except LoadError LoadedConfig :=
  match load_from_str parse content with
  | Except.error e => Except.error e
  | Except.ok loaded => Except.ok { loaded with path := some path }

structure CompiledCache where
  bundle : CacheFmt.CacheBundle
  diagnostics : List Diagnostic
  bytes : List Nat
deriving DecidableEq

inductive CompileError
  | Validation (diags : List Diagnostic)
  | Serialize (msg : String)
  | Build (e : BuildError)
deriving DecidableEq

/-- `compile_cache_from_path`. -/
def compile_cache_from_path (parse : String → Except ConfigError Config)
    (ser : CacheFmt.CacheBundle → Except String (List Nat)) (content : String) (now : Nat) :
    Except CompileError CompiledCache :=
  match build_from_path parse ser content now with
  | Except.ok (output, bytes) =>
    Except.ok { bundle := output.bundle
                diagnostics := convert_issues output.diagnostics
                bytes := bytes }
  | Except.error (BuildError.Validation diags) =>
    Except.error (CompileError.Validation (convert_issues diags))
  | Except.error err => Except.error (CompileError.Build err)

/-! ## Application state and reload (runtime/core/src/app.rs, watch.rs) -/

structure AppState where
  config_path : String
  loaded : LoadedConfig
  compiled : CompiledCache
deriving DecidableEq

inductive AppStateError
  | Load (e : LoadError)
  | Compile (e : CompileError)
deriving DecidableEq

/-- `AppState::reload`: load and compile from the config path; only
when both succeed are `self.loaded` and `self.compiled` replaced.  The
returned state is the value of `self` after the call (`content` is the
file content both reads observe; `now` the build timestamp). -/
def AppState.reload (parse : String → Except ConfigError Config)
    (ser : CacheFmt.CacheBundle → Except String (List Nat)) (content : String) (now : Nat)
    (s : AppState) : Except AppStateError Unit × AppState :=
  match load_from_path parse s.config_path content with
  | Except.error e => (Except.error (AppStateError.Load e), s)
  | Except.ok loaded =>
    match compile_cache_from_path parse ser content now with
    | Except.error e => (Except.error (AppStateError.Compile e), s)
    | Except.ok compiled =>
      (Except.ok (), { s with loaded := loaded, compiled := compiled })

inductive ReloadEvent
  | Reloaded
  | Failed (e : AppStateError)
deriving DecidableEq

/-- `reload_state` (watch.rs): run `AppState::reload` under the state
lock and broadcast `Reloaded` on success, `Failed(err)` on error. -/
def reload_state (parse : String → Except ConfigError Config)
    (ser : CacheFmt.CacheBundle → Except String (List Nat)) (content : String) (now : Nat)
    (s : AppState) : ReloadEvent × AppState :=
  match AppState.reload parse ser content now s with
  | (Except.ok _, s2) => (ReloadEvent.Reloaded, s2)
  | (Except.error e, s2) => (ReloadEvent.Failed e, s2)

/-! ## Executor (runtime/core/src/executor/mod.rs) -/

inductive ActionLog
  | Keystroke (keys : List String)
  | Pause (ms : Nat)
deriving DecidableEq

structure MidiEvent where
  note : Nat
  velocity : Nat
deriving DecidableEq

/-- `Executor` state: the `macros` and `triggers` HashMaps and the
action log.  The `key_sender` is pure I/O and is not part of the
state the claims are about. -/
structure Executor where
  macros : List (String × CacheFmt.MacroEntry)
  triggers : List (Nat × String)
  last_actions : List ActionLog
deriving DecidableEq

/-- One step of the `collect::<HashMap<_, _>>()` in
`Executor::apply_cache`: insert an entry keyed by its id (later
entries replace earlier ones with the same id). -/
def insertEntry (m : List (String × CacheFmt.MacroEntry)) (entry : CacheFmt.MacroEntry) :
    List (String × CacheFmt.MacroEntry) :=
  (hmInsert m entry.id entry).2

/-- One step of the trigger-table rebuild in `Executor::apply_cache`:
register the entry's trigger note, if any. -/
def registerTrigger (t : List (Nat × String)) (p : String × CacheFmt.MacroEntry) :
    List (Nat × String) :=
  match p.2.trigger with
  | some trigger => (hmInsert t trigger.number p.1).2
  | none => t

/-- `Executor::apply_cache`: rebuild the id → entry map from the bundle
(`collect` into a HashMap: later entries replace earlier ones with the
same id), clear the trigger table, and re-register every entry's
trigger note in the map's value-iteration order. -/
def Executor.apply_cache (e : Executor) (cache : CompiledCache) : Executor :=
  let macros := cache.bundle.macros.foldl insertEntry []
  let triggers := macros.foldl registerTrigger []
  { macros := macros, triggers := triggers, last_actions := e.last_actions }

/-- `Executor::execute_macro` modelled as a pure step: clear the log
and record one `ActionLog` per step in order (keystroke dispatch and
sleeping are external effects).  Returns whether the id was found. -/
def Executor.executeMacroEntry (e : Executor) (id : String) : Bool × Executor :=
  match hmLookup e.macros id with
  | none => (false, e)
  | some entry =>
    (true,
      { e with
        last_actions := entry.steps.map (fun step =>
          match step with
          | CacheFmt.MacroStep.Keystroke keys => ActionLog.Keystroke keys
          | CacheFmt.MacroStep.Pause ms => ActionLog.Pause ms) })

/-- `Executor::execute_midi_event`: look the note up in the trigger
table and run the bound macro, or return `false` untouched. -/
def Executor.execute_midi_event (e : Executor) (event : MidiEvent) : Bool × Executor :=
  match hmLookup e.triggers event.note with
  | some id => Executor.executeMacroEntry e id
  | none => (false, e)

/-! ## Consumer fan-out (runtime/core/src/runtime.rs, midi/mod.rs,
console/mod.rs) -/

/-- `MidiManager` (midi/mod.rs): the broadcast sender is I/O and not
modelled. -/
structure MidiManager where
  last_loaded_macros : List String
deriving DecidableEq

/-- `MidiManager::apply_cache`. -/
def MidiManager.apply_cache (_m : MidiManager) (cache : CompiledCache) : MidiManager :=
  { last_loaded_macros := cache.bundle.macros.map (fun entry => entry.id) }

structure WidgetWarning where
  device_id : String
  page_index : Nat
  page_name : Option String
  widget_id : String
  message : String
deriving DecidableEq

structure ConsoleManager where
  macro_count : Nat
  devices : List CacheFmt.DeviceLayout
  diagnostics : List Diagnostic
  widget_warning_cache : List WidgetWarning
deriving DecidableEq

/-- Substring search returning a character index, mirroring the byte
index of `str::find` (they agree on the sources the runtime sees, and
all index arithmetic below is internally consistent either way). -/
def strFind (s pat : String) : Option Nat :=
  firstIndexOf pat.data s.data 0

/-- Character-index slice `s[i..]`. -/
def sliceFrom (s : String) (i : Nat) : String :=
  String.mk (s.data.drop i)

/-- Character-index slice `s[i..j]`. -/
def sliceRange (s : String) (i j : Nat) : String :=
  String.mk ((s.data.take j).drop i)

/-- `ConsoleManager::parse_widget_warning`: best-effort decomposition
of a diagnostic path of the shape `devices.<id>.pages[<n>].widgets.<id>`. -/
def ConsoleManager.parse_widget_warning (c : ConsoleManager) (diag : Diagnostic) :
    Option WidgetWarning :=
  let path := diag.path
  match strFind path "devices." with
  | none => none
  | some f =>
    let device_start := f + "devices.".length
    match strFind (sliceFrom path device_start) "." with
    | none => none
    | some e =>
      let device_end := e + device_start
      let device_id := sliceRange path device_start device_end
      match strFind (sliceFrom path device_end) "pages[" with
      | none => none
      | some p =>
        let pages_start := p + device_end + "pages[".length
        match strFind (sliceFrom path pages_start) "]" with
        | none => none
        | some q =>
          let pages_end := q + pages_start
          match (sliceRange path pages_start pages_end).toNat? with
          | none => none
          | some page_index =>
            match strFind (sliceFrom path pages_end) ".widgets." with
            | none => none
            | some w =>
              let widget_start := w + pages_end + ".widgets.".length
              let widget_id := sliceFrom path widget_start
              let page_name :=
                ((c.devices.find? (fun d => d.id == device_id)).bind
                  (fun device => device.pages.get? page_index)).map
                  (fun page => page.name)
              some { device_id := device_id
                     page_index := page_index
                     page_name := page_name
                     widget_id := widget_id
                     message := diag.message }

/-- `ConsoleManager::rebuild_warning_cache`: keep the Warning
diagnostics that parse as widget warnings. -/
def ConsoleManager.rebuild_warning_cache (c : ConsoleManager) : ConsoleManager :=
  { c with
    widget_warning_cache := c.diagnostics.filterMap (fun diag =>
      if diag.severity == DiagnosticSeverity.Warning then
        ConsoleManager.parse_widget_warning c diag
      else none) }

/-- `ConsoleManager::apply_cache`. -/
def ConsoleManager.apply_cache (c : ConsoleManager) (cache : CompiledCache) : ConsoleManager :=
  ConsoleManager.rebuild_warning_cache
    { c with
      macro_count := cache.bundle.macros.length
      devices := cache.bundle.devices
      diagnostics := cache.diagnostics }

/-- The three independently locked consumers of a published bundle. -/
structure Modules where
  midi : MidiManager
  console : ConsoleManager
  executor : Executor
deriving DecidableEq

/-- `apply_cache_to_modules` (runtime.rs). -/
def apply_cache_to_modules (cache : CompiledCache) (m : Modules) : Modules :=
  { midi := MidiManager.apply_cache m.midi cache
    console := ConsoleManager.apply_cache m.console cache
    executor := Executor.apply_cache m.executor cache }

/-- One turn of the reload branch of the listener loop in
`RuntimeManager::initialize`: fan out the published cache to the
consumers only when the received event is `Reloaded`. -/
def listener_reload_step (event : ReloadEvent) (s : AppState) (m : Modules) : Modules :=
  match event with
  | ReloadEvent.Reloaded => apply_cache_to_modules s.compiled m
  | ReloadEvent.Failed _ => m

/-! ## Concrete instances used by the witness theorems -/

/-- A well-formed Ready macro (note 60, one keystroke step). -/
def readyMacro : Macro :=
  { status := MacroStatus.Ready
    description := none
    tags := []
    trigger := some { type := MidiTriggerType.Note, number := 60 }
    steps := [MacroStep.Keystroke ["B"]] }

/-- A Ready macro whose only step is an invalid 0 ms pause. -/
def badPauseMacro : Macro :=
  { status := MacroStatus.Ready
    description := none
    tags := []
    trigger := some { type := MidiTriggerType.Note, number := 61 }
    steps := [MacroStep.Pause 0] }

/-- A Ready macro on the same note 60 as `readyMacro`. -/
def clashMacro : Macro :=
  { status := MacroStatus.Ready
    description := none
    tags := []
    trigger := some { type := MidiTriggerType.Note, number := 60 }
    steps := [MacroStep.Keystroke ["C"]] }

/-- A device with a fixed hardware id and no pages. -/
def plainDevice : Device :=
  { hardware_id := some "usb:demo", pages := [] }

/-- A device with the same hardware id and one page holding one
widget. -/
def pagedDevice : Device :=
  { hardware_id := some "usb:demo"
    pages := [{ name := "Main"
                widgets := [{ id := "pad_1", action := none, tap_behavior := none }] }] }

/-- Two paged devices sharing a hardware id, in a fixed iteration
order. -/
def pagedDupCfg : Config :=
  { version := 1
    devices := [("beta", pagedDevice), ("alpha", pagedDevice)]
    macros := []
    scripts := [] }

/-- Two configs presenting the same parsed two-macro map in the two
possible iteration orders. -/
def cfgOrderAB : Config :=
  { version := 1, devices := [], macros := [("a", readyMacro), ("b", clashMacro)], scripts := [] }

def cfgOrderBA : Config :=
  { version := 1, devices := [], macros := [("b", clashMacro), ("a", readyMacro)], scripts := [] }

/-- Two configs presenting the same parsed two-device map (identical
hardware ids) in the two possible iteration orders. -/
def cfgDevDecl : Config :=
  { version := 1, devices := [("alpha", plainDevice), ("beta", plainDevice)], macros := [],
    scripts := [] }

def cfgDevIter : Config :=
  { version := 1, devices := [("beta", plainDevice), ("alpha", plainDevice)], macros := [],
    scripts := [] }

/-- Two in-memory configs present the same parsed document when they
agree on the version and their maps hold the same bindings, differing
only in iteration order (the HashMap iteration order is unspecified
and varies between two parses of the same text). -/
def SameParsedMap (c1 c2 : Config) : Prop :=
  c1.version = c2.version ∧ List.Perm c1.devices c2.devices ∧
    List.Perm c1.macros c2.macros ∧ List.Perm c1.scripts c2.scripts

instance (c1 c2 : Config) : Decidable (SameParsedMap c1 c2) := by
  unfold SameParsedMap
  infer_instance

/-- A config whose only macro is Ready with an invalid pause step. -/
def badPauseCfg : Config :=
  { version := 1, devices := [], macros := [("bad", badPauseMacro)], scripts := [] }

/-- A config with one Ready macro and one Draft macro. -/
def readyDraftCfg : Config :=
  { version := 1
    devices := []
    macros := [("ready", readyMacro), ("draft", { readyMacro with status := MacroStatus.Draft })]
    scripts := [] }

/-- A Draft macro with a valid keystroke step and no trigger. -/
def draftMacro : Macro :=
  { status := MacroStatus.Draft
    description := none
    tags := []
    trigger := none
    steps := [MacroStep.Keystroke ["A"]] }

/-- A widget wired to the Draft macro. -/
def widgetToDraft : Widget :=
  { id := "pad_1", action := some (Action.MacroRef "draft_macro"), tap_behavior := none }

/-- A widget wired to a macro id that does not exist. -/
def widgetToGhost : Widget :=
  { id := "pad_2", action := some (Action.MacroRef "ghost"), tap_behavior := none }

/-- One page holding both widgets. -/
def pageMain : Page := { name := "Main", widgets := [widgetToDraft, widgetToGhost] }

/-- A config with one device page wired to a Draft macro and to a
missing macro. -/
def widgetRefCfg : Config :=
  { version := 1
    devices := [("controller", { hardware_id := some "usb:test", pages := [pageMain] })]
    macros := [("draft_macro", draftMacro)]
    scripts := [] }

/-- A compiled cache holding one macro bound to note 60, for the
witness theorems. -/
def sampleCache : CompiledCache :=
  { bundle :=
      { header := { version := 1, source_hash := 0, generated_at := 0 }
        devices := []
        macros := [{ id := "m1"
                     description := none
                     tags := []
                     trigger := some { type := CacheFmt.MidiTriggerType.Note, number := 60 }
                     steps := [CacheFmt.MacroStep.Keystroke ["A"]] }] }
    diagnostics := []
    bytes := [] }

/-- An executor that has not applied any cache yet. -/
def emptyExecutor : Executor :=
  { macros := [], triggers := [], last_actions := [] }

/-- A minimal `AppState` for the witness theorems. -/
def sampleAppState : AppState :=
  { config_path := "config.yaml"
    loaded :=
      { path := some "config.yaml"
        config := { version := 1, devices := [], macros := [], scripts := [] }
        diagnostics := [] }
    compiled :=
      { bundle :=
          { header := { version := 1, source_hash := 0, generated_at := 0 }
            devices := []
            macros := [] }
        diagnostics := []
        bytes := [] } }

/-! ## Lemmas about the association-map model -/

theorem hmLookup_hmErase_ne {κ α : Type} [DecidableEq κ] (m : List (κ × α)) (k k' : κ)
    (h : k' ≠ k) : hmLookup (hmErase m k) k' = hmLookup m k' := by
  induction m with
  | nil => rfl
  | cons p rest ih =>
    by_cases hp : p.1 = k
    · have hk' : p.1 ≠ k' := fun e => h (e ▸ hp)
      have hdrop : hmErase (p :: rest) k = hmErase rest k := by
        simp [hmErase, List.filter_cons, hp]
      rw [hdrop, ih]
      simp [hmLookup, hk']
    · have hkeep : hmErase (p :: rest) k = p :: hmErase rest k := by
        simp [hmErase, List.filter_cons, hp]
      rw [hkeep]
      by_cases hk' : p.1 = k'
      · simp [hmLookup, hk']
      · simp [hmLookup, hk', ih]

theorem hmLookup_hmInsert_self {κ α : Type} [DecidableEq κ] (m : List (κ × α)) (k : κ)
    (v : α) : hmLookup (hmInsert m k v).2 k = some v := by
  simp [hmInsert, hmLookup]

theorem hmLookup_hmInsert_ne {κ α : Type} [DecidableEq κ] (m : List (κ × α)) (k k' : κ)
    (v : α) (h : k' ≠ k) : hmLookup (hmInsert m k v).2 k' = hmLookup m k' := by
  have hk : k ≠ k' := fun e => h e.symm
  simp only [hmInsert, hmLookup, if_neg hk]
  exact hmLookup_hmErase_ne m k k' h

theorem isSome_hmLookup_hmInsert {κ α : Type} [DecidableEq κ] (m : List (κ × α))
    (k k' : κ) (v : α) (h : (hmLookup m k').isSome) :
    (hmLookup (hmInsert m k v).2 k').isSome := by
  by_cases e : k' = k
  · subst e
    rw [hmLookup_hmInsert_self]
    rfl
  · rw [hmLookup_hmInsert_ne m k k' v e]
    exact h

theorem not_mem_keys_hmErase {κ α : Type} [DecidableEq κ] (m : List (κ × α)) (k : κ) :
    k ∉ (hmErase m k).map Prod.fst := by
  intro hmem
  obtain ⟨p, hp, hk⟩ := List.mem_map.mp hmem
  have := List.of_mem_filter hp
  rw [hk] at this
  simp at this

theorem nodup_keys_hmInsert {κ α : Type} [DecidableEq κ] (m : List (κ × α)) (k : κ)
    (v : α) (h : (m.map Prod.fst).Nodup) : (((hmInsert m k v).2).map Prod.fst).Nodup := by
  simp only [hmInsert, List.map_cons]
  refine List.Nodup.cons (not_mem_keys_hmErase m k) ?_
  exact List.Nodup.sublist (List.Sublist.map Prod.fst (List.filter_sublist m)) h

theorem mem_of_hmLookup {κ α : Type} [DecidableEq κ] {m : List (κ × α)} {k : κ} {v : α}
    (h : hmLookup m k = some v) : (k, v) ∈ m := by
  induction m with
  | nil => simp [hmLookup] at h
  | cons p rest ih =>
    by_cases hp : p.1 = k
    · simp only [hmLookup, if_pos hp] at h
      have hv := Option.some.inj h
      have he : (k, v) = p := by
        obtain ⟨p1, p2⟩ := p
        simp only at hp hv
        rw [hp, hv]
      rw [he]
      exact List.mem_cons_self _ _
    · simp only [hmLookup, if_neg hp] at h
      exact List.mem_cons_of_mem _ (ih h)

theorem hmLookup_eq_of_mem {κ α : Type} [DecidableEq κ] {m : List (κ × α)} {k : κ} {v : α}
    (h : (k, v) ∈ m) (hn : (m.map Prod.fst).Nodup) : hmLookup m k = some v := by
  induction m with
  | nil => cases h
  | cons p rest ih =>
    rcases List.mem_cons.mp h with he | hrest
    · rw [← he]
      simp [hmLookup]
    · have hk : k ∈ rest.map Prod.fst := List.mem_map.mpr ⟨(k, v), hrest, rfl⟩
      have hp : p.1 ≠ k := by
        intro e
        exact (List.nodup_cons.mp (by simpa using hn)).1 (e ▸ hk)
      simp only [hmLookup, if_neg hp]
      exact ih hrest (List.nodup_cons.mp (by simpa using hn)).2

/-! ## Reload coordination: claims C1, C3, C4 -/

theorem reload_error_eq (parse : String → Except ConfigError Config)
    (ser : CacheFmt.CacheBundle → Except String (List Nat)) (content : String) (now : Nat)
    (s : AppState) (e : AppStateError)
    (herr : (AppState.reload parse ser content now s).1 = Except.error e) :
    AppState.reload parse ser content now s = (Except.error e, s) := by
  unfold AppState.reload at herr ⊢
  cases hl : load_from_path parse s.config_path content with
  | error e1 =>
    rw [hl] at herr
    dsimp only at herr
    exact herr ▸ rfl
  | ok loaded =>
    rw [hl] at herr
    dsimp only at herr
    cases hc : compile_cache_from_path parse ser content now with
    | error e2 =>
      rw [hc] at herr
      dsimp only at herr
      exact herr ▸ rfl
    | ok compiled =>
      rw [hc] at herr
      dsimp only at herr
      exact absurd herr (by simp)

/-- C1: whenever `AppState::reload` returns an error (parse failure,
validation Error diagnostics, serialization failure — any failure of
the load or compile stage), the stored loaded configuration and
compiled bundle are exactly what they were before the call, the watch
task broadcasts `Failed` carrying that error instead of `Reloaded`,
and the listener's consumer fan-out leaves every module untouched on a
`Failed` event (it applies the cache only on `Reloaded`). -/
theorem C1_failed_reload_keeps_state (parse : String → Except ConfigError Config)
    (ser : CacheFmt.CacheBundle → Except String (List Nat)) (content : String) (now : Nat)
    (s : AppState) (e : AppStateError)
    (herr : (AppState.reload parse ser content now s).1 = Except.error e) :
    (AppState.reload parse ser content now s).2 = s ∧
    reload_state parse ser content now s = (ReloadEvent.Failed e, s) ∧
    (∀ (e2 : AppStateError) (s2 : AppState) (m : Modules),
      listener_reload_step (ReloadEvent.Failed e2) s2 m = m) ∧
    (∀ (s2 : AppState) (m : Modules),
      listener_reload_step ReloadEvent.Reloaded s2 m = apply_cache_to_modules s2.compiled m) := by
  have key := reload_error_eq parse ser content now s e herr
  refine ⟨by rw [key], ?_, fun e2 s2 m => rfl, fun s2 m => rfl⟩
  unfold reload_state
  rw [key]

/-- Witness for C1: a parse failure at a concrete state. -/
theorem C1_witness :
    (AppState.reload (fun _ => Except.error (ConfigError.Parse "bad"))
        (fun _ => Except.ok []) "x" 0 sampleAppState).2 = sampleAppState ∧
    reload_state (fun _ => Except.error (ConfigError.Parse "bad"))
        (fun _ => Except.ok []) "x" 0 sampleAppState =
      (ReloadEvent.Failed (AppStateError.Load (LoadError.Parse (ConfigError.Parse "bad"))),
        sampleAppState) ∧
    (∀ (e2 : AppStateError) (s2 : AppState) (m : Modules),
      listener_reload_step (ReloadEvent.Failed e2) s2 m = m) ∧
    (∀ (s2 : AppState) (m : Modules),
      listener_reload_step ReloadEvent.Reloaded s2 m = apply_cache_to_modules s2.compiled m) :=
  C1_failed_reload_keeps_state (fun _ => Except.error (ConfigError.Parse "bad"))
    (fun _ => Except.ok []) "x" 0 sampleAppState
    (AppStateError.Load (LoadError.Parse (ConfigError.Parse "bad"))) rfl

/-- C3: with the parse fixed to succeed, `build_from_str` fails with
`Validation` carrying the full diagnostic list exactly when some
diagnostic has Error severity, and otherwise returns the assembled
bundle together with the (non-Error) diagnostics. -/
theorem C3_validation_gate (parse : String → Except ConfigError Config) (content : String)
    (config : Config) (now : Nat) (hp : parse content = Except.ok config) :
    (build_from_str parse content now =
        Except.error (BuildError.Validation (validate_config config content)) ↔
      (validate_config config content).any (fun i => i.severity == Severity.Error) = true) ∧
    ((validate_config config content).any (fun i => i.severity == Severity.Error) = false →
      build_from_str parse content now =
        Except.ok { bundle := assemble_bundle config content now
                    diagnostics := validate_config config content }) := by
  have hbs : build_from_str parse content now = build_from_config config content now := by
    unfold build_from_str
    rw [hp]
  rw [hbs]
  unfold build_from_config
  cases h : (validate_config config content).any (fun i => i.severity == Severity.Error) with
  | true => simp [h]
  | false => simp [h]

/-- Witness for C3: a config whose only macro is Ready with an invalid
pause step, so validation yields an Error and the build fails. -/
theorem C3_witness :
    (build_from_str (fun _ => Except.ok badPauseCfg) "src" 5 =
        Except.error (BuildError.Validation (validate_config badPauseCfg "src")) ↔
      (validate_config badPauseCfg "src").any
        (fun i => i.severity == Severity.Error) = true) ∧
    ((validate_config badPauseCfg "src").any
        (fun i => i.severity == Severity.Error) = false →
      build_from_str (fun _ => Except.ok badPauseCfg) "src" 5 =
        Except.ok { bundle := assemble_bundle badPauseCfg "src" 5
                    diagnostics := validate_config badPauseCfg "src" }) :=
  C3_validation_gate (fun _ => Except.ok badPauseCfg) "src" badPauseCfg 5 rfl

theorem build_from_config_ok (config : Config) (source : String) (now : Nat)
    (output : BuildOutput) (hok : build_from_config config source now = Except.ok output) :
    (validate_config config source).any (fun i => i.severity == Severity.Error) = false ∧
    output = { bundle := assemble_bundle config source now
               diagnostics := validate_config config source } := by
  unfold build_from_config at hok
  cases h : (validate_config config source).any (fun i => i.severity == Severity.Error) with
  | true =>
    rw [h] at hok
    simp at hok
  | false =>
    rw [h] at hok
    simp only [Bool.false_eq_true, if_false, Except.ok.injEq] at hok
    exact ⟨rfl, hok.symm⟩

/-- C4: a successful build's macro list is exactly the Ready macros of
the document converted one-to-one by `toMacroEntry` (id, description,
tags, trigger, steps), so its length is at most the number of macros
in the document. -/
theorem C4_bundle_ready_macros (config : Config) (source : String) (now : Nat)
    (output : BuildOutput) (hok : build_from_config config source now = Except.ok output) :
    output.bundle.macros =
      (config.macros.filter (fun p => p.2.status == MacroStatus.Ready)).map toMacroEntry ∧
    output.bundle.macros.length ≤ config.macros.length := by
  obtain ⟨-, ho⟩ := build_from_config_ok config source now output hok
  subst ho
  refine ⟨rfl, ?_⟩
  calc ((config.macros.filter (fun p => p.2.status == MacroStatus.Ready)).map
          toMacroEntry).length
      = (config.macros.filter (fun p => p.2.status == MacroStatus.Ready)).length :=
        List.length_map _ _
    _ ≤ config.macros.length := List.length_filter_le _ _

/-! ## Executor trigger table: claim C10 -/

theorem nodup_keys_foldl_insertEntry (entries : List CacheFmt.MacroEntry) :
    ∀ (m : List (String × CacheFmt.MacroEntry)), (m.map Prod.fst).Nodup →
      ((entries.foldl insertEntry m).map Prod.fst).Nodup := by
  induction entries with
  | nil => intro m h; exact h
  | cons a rest ih =>
    intro m h
    rw [List.foldl_cons]
    exact ih _ (nodup_keys_hmInsert m a.id a h)

theorem nodup_keys_foldl_registerTrigger (l : List (String × CacheFmt.MacroEntry)) :
    ∀ (t : List (Nat × String)), (t.map Prod.fst).Nodup →
      ((l.foldl registerTrigger t).map Prod.fst).Nodup := by
  induction l with
  | nil => intro t h; exact h
  | cons q rest ih =>
    intro t h
    rw [List.foldl_cons]
    cases hq : q.2.trigger with
    | none => exact ih _ (by simpa [registerTrigger, hq] using h)
    | some trig =>
      refine ih _ ?_
      simp only [registerTrigger, hq]
      exact nodup_keys_hmInsert t trig.number q.1 h

theorem isSome_foldl_registerTrigger (l : List (String × CacheFmt.MacroEntry)) :
    ∀ (t : List (Nat × String)) (n : Nat), (hmLookup t n).isSome →
      (hmLookup (l.foldl registerTrigger t) n).isSome := by
  induction l with
  | nil => intro t n h; exact h
  | cons q rest ih =>
    intro t n h
    rw [List.foldl_cons]
    refine ih _ n ?_
    cases hq : q.2.trigger with
    | none => simpa [registerTrigger, hq] using h
    | some trig =>
      simp only [registerTrigger, hq]
      exact isSome_hmLookup_hmInsert t trig.number n q.1 h

theorem registerTrigger_covers (l : List (String × CacheFmt.MacroEntry)) :
    ∀ (t : List (Nat × String)) (p : String × CacheFmt.MacroEntry) (trig : CacheFmt.MidiTrigger),
      p ∈ l → p.2.trigger = some trig →
      (hmLookup (l.foldl registerTrigger t) trig.number).isSome := by
  induction l with
  | nil => intro t p trig h; cases h
  | cons q rest ih =>
    intro t p trig hmem htrig
    rw [List.foldl_cons]
    rcases List.mem_cons.mp hmem with he | hrest
    · subst he
      refine isSome_foldl_registerTrigger rest _ trig.number ?_
      simp only [registerTrigger, htrig]
      rw [hmLookup_hmInsert_self]
      rfl
    · exact ih _ p trig hrest htrig

theorem registerTrigger_sound (M : List (String × CacheFmt.MacroEntry))
    (l : List (String × CacheFmt.MacroEntry)) :
    ∀ (t : List (Nat × String)), (∀ p ∈ l, p ∈ M) →
      (∀ (n : Nat) (id2 : String), hmLookup t n = some id2 →
        ∃ q, q ∈ M ∧ q.1 = id2 ∧ ∃ trig2, q.2.trigger = some trig2 ∧ trig2.number = n) →
      ∀ (n : Nat) (id2 : String), hmLookup (l.foldl registerTrigger t) n = some id2 →
        ∃ q, q ∈ M ∧ q.1 = id2 ∧ ∃ trig2, q.2.trigger = some trig2 ∧ trig2.number = n := by
  induction l with
  | nil => intro t _ hinv; exact hinv
  | cons q rest ih =>
    intro t hsub hinv
    rw [List.foldl_cons]
    refine ih _ (fun p hp => hsub p (List.mem_cons_of_mem _ hp)) ?_
    intro n id2 hlook
    cases hq : q.2.trigger with
    | none =>
      rw [show registerTrigger t q = t by simp [registerTrigger, hq]] at hlook
      exact hinv n id2 hlook
    | some trig =>
      simp only [registerTrigger, hq] at hlook
      by_cases hn : n = trig.number
      · subst hn
        rw [hmLookup_hmInsert_self] at hlook
        exact ⟨q, hsub q (List.mem_cons_self _ _), Option.some.inj hlook,
          trig, hq, rfl⟩
      · rw [hmLookup_hmInsert_ne t trig.number n q.1 hn] at hlook
        exact hinv n id2 hlook

/-- C10: after `Executor::apply_cache`, the trigger table binds each
note to at most one macro id (its keys are unique); every cached macro
that declares a trigger note forces that note to be bound, and the
binding always points at some cached macro declaring that very note —
so when several macros declare the same note, exactly one of them owns
the binding.  `execute_midi_event` on an unbound note returns `false`
and leaves the executor untouched (no step runs). -/
theorem C10_trigger_table (e : Executor) (cache : CompiledCache) :
    (((Executor.apply_cache e cache).triggers.map Prod.fst).Nodup) ∧
    (∀ p : String × CacheFmt.MacroEntry, p ∈ (Executor.apply_cache e cache).macros →
      ∀ trig : CacheFmt.MidiTrigger, p.2.trigger = some trig →
        ∃ id2, hmLookup (Executor.apply_cache e cache).triggers trig.number = some id2 ∧
          ∃ q, q ∈ (Executor.apply_cache e cache).macros ∧ q.1 = id2 ∧
            ∃ trig2, q.2.trigger = some trig2 ∧ trig2.number = trig.number) ∧
    (∀ ev : MidiEvent, hmLookup (Executor.apply_cache e cache).triggers ev.note = none →
      Executor.execute_midi_event (Executor.apply_cache e cache) ev =
        (false, Executor.apply_cache e cache)) := by
  refine ⟨?_, ?_, ?_⟩
  · exact nodup_keys_foldl_registerTrigger _ [] (by simp)
  · intro p hp trig htrig
    have hs := registerTrigger_covers (cache.bundle.macros.foldl insertEntry []) []
      p trig hp htrig
    obtain ⟨id2, hid2⟩ := Option.isSome_iff_exists.mp hs
    refine ⟨id2, hid2, ?_⟩
    exact registerTrigger_sound (cache.bundle.macros.foldl insertEntry [])
      (cache.bundle.macros.foldl insertEntry []) [] (fun q hq => hq)
      (by intro n i h; simp [hmLookup] at h) trig.number id2 hid2
  · intro ev h
    simp [Executor.execute_midi_event, h]

/-- Witness for C10's unbound-note branch at a concrete executor. -/
theorem C10_witness :
    Executor.execute_midi_event (Executor.apply_cache emptyExecutor sampleCache)
        { note := 99, velocity := 0 } =
      (false, Executor.apply_cache emptyExecutor sampleCache) :=
  (C10_trigger_table emptyExecutor sampleCache).2.2 { note := 99, velocity := 0 } (by decide)

/-! ## Membership lemmas for the validator sections -/

theorem mem_validate_config_of_mem_macrosCheck (cfg : Config) (source : String)
    (i : ValidationIssue) (h : i ∈ macrosCheck [] cfg.macros) :
    { i with location := find_location source i.path } ∈ validate_config cfg source := by
  unfold validate_config attach_locations
  refine List.mem_map_of_mem _ ?_
  simp only [List.mem_append]
  exact Or.inl (Or.inr h)

theorem mem_validate_config_of_mem_devicesCheck (cfg : Config) (source : String)
    (i : ValidationIssue) (h : i ∈ devicesCheck cfg [] cfg.devices) :
    { i with location := find_location source i.path } ∈ validate_config cfg source := by
  unfold validate_config attach_locations
  refine List.mem_map_of_mem _ ?_
  simp only [List.mem_append]
  exact Or.inl (Or.inl (Or.inr h))

theorem mem_macrosCheck_of_mem_steps (l : List (String × Macro)) :
    ∀ (nm : List (Nat × String)) (name : String) (m : Macro) (i : ValidationIssue),
      (name, m) ∈ l → i ∈ macroStepsCheck name m → i ∈ macrosCheck nm l := by
  induction l with
  | nil => intro nm name m i hmem; cases hmem
  | cons p rest ih =>
    intro nm name m i hmem hi
    rcases List.mem_cons.mp hmem with he | hrest
    · rw [← he]
      show i ∈ (macroTriggerCheck nm name m).2 ++ macroStepsCheck name m ++
        macrosCheck (macroTriggerCheck nm name m).1 rest
      exact List.mem_append_left _ (List.mem_append_right _ hi)
    · show i ∈ (macroTriggerCheck nm p.1 p.2).2 ++ macroStepsCheck p.1 p.2 ++
        macrosCheck (macroTriggerCheck nm p.1 p.2).1 rest
      exact List.mem_append_right _ (ih _ name m i hrest hi)

theorem mem_macrosCheck_of_trigger_all (l : List (String × Macro)) :
    ∀ (nm : List (Nat × String)) (name : String) (m : Macro) (i : ValidationIssue),
      (name, m) ∈ l → (∀ nm2, i ∈ (macroTriggerCheck nm2 name m).2) →
      i ∈ macrosCheck nm l := by
  induction l with
  | nil => intro nm name m i hmem; cases hmem
  | cons p rest ih =>
    intro nm name m i hmem hall
    rcases List.mem_cons.mp hmem with he | hrest
    · rw [← he]
      show i ∈ (macroTriggerCheck nm name m).2 ++ macroStepsCheck name m ++
        macrosCheck (macroTriggerCheck nm name m).1 rest
      exact List.mem_append_left _ (List.mem_append_left _ (hall nm))
    · show i ∈ (macroTriggerCheck nm p.1 p.2).2 ++ macroStepsCheck p.1 p.2 ++
        macrosCheck (macroTriggerCheck nm p.1 p.2).1 rest
      exact List.mem_append_right _ (ih _ name m i hrest hall)

theorem stepIssue_mem_macroStepsCheck_keystroke (name : String) (m : Macro) (idx : Nat)
    (keys : List String) (hstep : m.steps[idx]? = some (MacroStep.Keystroke keys))
    (hbad : (keys.isEmpty || keys.any (fun k => (strTrim k).isEmpty)) = true) :
    ValidationIssue.new ("macros." ++ name ++ ".steps[" ++ toString idx ++ "]")
      "Keystroke step must define at least one non-empty key"
      (adjust_severity_for_draft m.status Severity.Error) ∈ macroStepsCheck name m := by
  unfold macroStepsCheck
  have henum : (idx, MacroStep.Keystroke keys) ∈ m.steps.enum :=
    List.mem_enum_iff_getElem?.mpr
      (show m.steps[(idx, MacroStep.Keystroke keys).1]? =
        some (idx, MacroStep.Keystroke keys).2 from hstep)
  refine List.mem_flatten.mpr ⟨_, List.mem_map_of_mem _ henum, ?_⟩
  simp [hbad]

theorem stepIssue_mem_macroStepsCheck_pause (name : String) (m : Macro) (idx : Nat)
    (hstep : m.steps[idx]? = some (MacroStep.Pause 0)) :
    ValidationIssue.new ("macros." ++ name ++ ".steps[" ++ toString idx ++ "]")
      "Pause duration must be greater than zero"
      (adjust_severity_for_draft m.status Severity.Error) ∈ macroStepsCheck name m := by
  unfold macroStepsCheck
  have henum : (idx, MacroStep.Pause 0) ∈ m.steps.enum :=
    List.mem_enum_iff_getElem?.mpr
      (show m.steps[(idx, MacroStep.Pause 0).1]? =
        some (idx, MacroStep.Pause 0).2 from hstep)
  refine List.mem_flatten.mpr ⟨_, List.mem_map_of_mem _ henum, ?_⟩
  simp

theorem macroStepsCheck_shape (name : String) (m : Macro) (i : ValidationIssue)
    (h : i ∈ macroStepsCheck name m) :
    i.severity = adjust_severity_for_draft m.status Severity.Error ∧
    ∃ idx : Nat, i.path = "macros." ++ name ++ ".steps[" ++ toString idx ++ "]" := by
  unfold macroStepsCheck at h
  obtain ⟨lst, hl, hi⟩ := List.mem_flatten.mp h
  obtain ⟨q, _, rfl⟩ := List.mem_map.mp hl
  rcases q with ⟨idx, step⟩
  cases step with
  | Keystroke keys =>
    by_cases hc : (keys.isEmpty || keys.any (fun k => (strTrim k).isEmpty)) = true
    · simp only [hc, if_true] at hi
      rcases List.mem_singleton.mp (by simpa using hi) with rfl
      exact ⟨rfl, idx, rfl⟩
    · simp only [Bool.not_eq_true] at hc
      simp [hc] at hi
  | Pause ms =>
    by_cases hc : (ms == 0) = true
    · simp only [hc, if_true] at hi
      rcases List.mem_singleton.mp (by simpa using hi) with rfl
      exact ⟨rfl, idx, rfl⟩
    · simp only [Bool.not_eq_true] at hc
      simp [hc] at hi

/-- C5: for a macro in the document with an invalid step (keystroke
with zero keys or a whitespace-only key, or a 0 ms pause) at index
`idx`, `validate_config` emits a diagnostic at
`macros.<id>.steps[<idx>]` whose severity is the Draft-downgraded
Error: Warning when the macro is Draft, Error when it is Ready; and no
step diagnostic of a Draft macro is ever an Error. -/
theorem C5_step_severity (cfg : Config) (source : String) (name : String) (m : Macro)
    (idx : Nat) (step : MacroStep) (hmem : (name, m) ∈ cfg.macros)
    (hstep : m.steps[idx]? = some step) (hbad : stepInvalid step = true) :
    (∃ issue ∈ validate_config cfg source,
      issue.path = "macros." ++ name ++ ".steps[" ++ toString idx ++ "]" ∧
      issue.severity = adjust_severity_for_draft m.status Severity.Error) ∧
    adjust_severity_for_draft MacroStatus.Draft Severity.Error = Severity.Warning ∧
    adjust_severity_for_draft MacroStatus.Ready Severity.Error = Severity.Error ∧
    (∀ (name2 : String) (m2 : Macro), m2.status = MacroStatus.Draft →
      ∀ issue ∈ macroStepsCheck name2 m2, issue.severity ≠ Severity.Error) := by
  refine ⟨?_, rfl, rfl, ?_⟩
  · have hin : ∃ msg, ValidationIssue.new
        ("macros." ++ name ++ ".steps[" ++ toString idx ++ "]") msg
        (adjust_severity_for_draft m.status Severity.Error) ∈ macroStepsCheck name m := by
      cases step with
      | Keystroke keys =>
        exact ⟨_, stepIssue_mem_macroStepsCheck_keystroke name m idx keys hstep
          (by simpa [stepInvalid] using hbad)⟩
      | Pause ms =>
        have hms : ms = 0 := by simpa [stepInvalid] using hbad
        subst hms
        exact ⟨_, stepIssue_mem_macroStepsCheck_pause name m idx hstep⟩
    obtain ⟨msg, hmsg⟩ := hin
    refine ⟨_, mem_validate_config_of_mem_macrosCheck cfg source _
      (mem_macrosCheck_of_mem_steps cfg.macros [] name m _ hmem hmsg), rfl, rfl⟩
  · intro name2 m2 hdraft issue hissue
    have := (macroStepsCheck_shape name2 m2 issue hissue).1
    rw [hdraft] at this
    rw [this]
    simp [adjust_severity_for_draft]

/-- Witness for C5: the Ready macro with a 0 ms pause step. -/
theorem C5_witness :
    (∃ issue ∈ validate_config badPauseCfg "src",
      issue.path = "macros." ++ "bad" ++ ".steps[" ++ toString 0 ++ "]" ∧
      issue.severity = adjust_severity_for_draft badPauseMacro.status Severity.Error) ∧
    adjust_severity_for_draft MacroStatus.Draft Severity.Error = Severity.Warning ∧
    adjust_severity_for_draft MacroStatus.Ready Severity.Error = Severity.Error ∧
    (∀ (name2 : String) (m2 : Macro), m2.status = MacroStatus.Draft →
      ∀ issue ∈ macroStepsCheck name2 m2, issue.severity ≠ Severity.Error) :=
  C5_step_severity badPauseCfg "src" "bad" badPauseMacro 0 (MacroStep.Pause 0)
    (by decide) (by decide) (by decide)

/-! ## Widget action references: claim C7 -/

theorem mem_widgetsCheck_of_action (cfg : Config) (path : String) (pIdx : Nat)
    (widgets : List Widget) :
    ∀ (seen : List String) (w : Widget) (a : Action) (i : ValidationIssue),
      w ∈ widgets → w.action = some a →
      i ∈ widgetActionCheck cfg
        (path ++ ".pages[" ++ toString pIdx ++ "].widgets." ++ w.id) a →
      i ∈ widgetsCheck cfg path pIdx seen widgets := by
  induction widgets with
  | nil => intro seen w a i h; cases h
  | cons q rest ih =>
    intro seen w a i hmem ha hi
    rcases List.mem_cons.mp hmem with he | hrest
    · subst he
      show i ∈
        (if seen.contains w.id then
          [ValidationIssue.new (path ++ ".pages[" ++ toString pIdx ++ "].widgets." ++ w.id)
            "Duplicate widget id within page" Severity.Error]
        else []) ++
        (match w.action with
         | some action => widgetActionCheck cfg
             (path ++ ".pages[" ++ toString pIdx ++ "].widgets." ++ w.id) action
         | none => []) ++
        widgetsCheck cfg path pIdx (w.id :: seen) rest
      refine List.mem_append_left _ (List.mem_append_right _ ?_)
      rw [ha]
      exact hi
    · show i ∈
        (if seen.contains q.id then
          [ValidationIssue.new (path ++ ".pages[" ++ toString pIdx ++ "].widgets." ++ q.id)
            "Duplicate widget id within page" Severity.Error]
        else []) ++
        (match q.action with
         | some action => widgetActionCheck cfg
             (path ++ ".pages[" ++ toString pIdx ++ "].widgets." ++ q.id) action
         | none => []) ++
        widgetsCheck cfg path pIdx (q.id :: seen) rest
      exact List.mem_append_right _ (ih (q.id :: seen) w a i hrest ha hi)

theorem mem_pagesCheck_of_page (cfg : Config) (path : String) (pages : List Page)
    (pIdx : Nat) (page : Page) (hp : pages[pIdx]? = some page) (i : ValidationIssue)
    (hi : i ∈ widgetsCheck cfg path pIdx [] page.widgets) : i ∈ pagesCheck cfg path pages := by
  unfold pagesCheck
  have henum : (pIdx, page) ∈ pages.enum :=
    List.mem_enum_iff_getElem?.mpr
      (show pages[(pIdx, page).1]? = some (pIdx, page).2 from hp)
  exact List.mem_flatten.mpr ⟨_, List.mem_map_of_mem _ henum, hi⟩

theorem mem_devicesCheck_of_pages (cfg : Config) (l : List (String × Device)) :
    ∀ (hw : List (String × String)) (dname : String) (dev : Device) (i : ValidationIssue),
      (dname, dev) ∈ l → i ∈ pagesCheck cfg ("devices." ++ dname) dev.pages →
      i ∈ devicesCheck cfg hw l := by
  induction l with
  | nil => intro hw dname dev i h; cases h
  | cons p rest ih =>
    intro hw dname dev i hmem hi
    rcases List.mem_cons.mp hmem with he | hrest
    · rw [← he]
      show i ∈ (deviceHwCheck hw dname dev).2 ++
        pagesCheck cfg ("devices." ++ dname) dev.pages ++
        devicesCheck cfg (deviceHwCheck hw dname dev).1 rest
      exact List.mem_append_left _ (List.mem_append_right _ hi)
    · show i ∈ (deviceHwCheck hw p.1 p.2).2 ++
        pagesCheck cfg ("devices." ++ p.1) p.2.pages ++
        devicesCheck cfg (deviceHwCheck hw p.1 p.2).1 rest
      exact List.mem_append_right _ (ih _ dname dev i hrest hi)

/-- C7: a widget action referencing a missing macro id produces exactly
one Error at the widget's path, and one referencing an existing
not-Ready macro produces exactly one Warning (no Error) whose message
says it is not marked ready; both diagnostics surface in
`validate_config`. -/
theorem C7_widget_macro_refs (cfg : Config) (source : String) (dname : String)
    (dev : Device) (pIdx : Nat) (page : Page) (w : Widget)
    (hdev : (dname, dev) ∈ cfg.devices) (hpage : dev.pages[pIdx]? = some page)
    (hw : w ∈ page.widgets) :
    (∀ r : String, w.action = some (Action.MacroRef r) → hmContains cfg.macros r = false →
      widgetActionCheck cfg
          (("devices." ++ dname) ++ ".pages[" ++ toString pIdx ++ "].widgets." ++ w.id)
          (Action.MacroRef r) =
        [ValidationIssue.new
          (("devices." ++ dname) ++ ".pages[" ++ toString pIdx ++ "].widgets." ++ w.id)
          ("References undefined macro `" ++ r ++ "`") Severity.Error] ∧
      ∃ issue ∈ validate_config cfg source,
        issue.path =
          ("devices." ++ dname) ++ ".pages[" ++ toString pIdx ++ "].widgets." ++ w.id ∧
        issue.message = "References undefined macro `" ++ r ++ "`" ∧
        issue.severity = Severity.Error) ∧
    (∀ (r : String) (mac : Macro), w.action = some (Action.MacroRef r) →
      hmLookup cfg.macros r = some mac → mac.status ≠ MacroStatus.Ready →
      widgetActionCheck cfg
          (("devices." ++ dname) ++ ".pages[" ++ toString pIdx ++ "].widgets." ++ w.id)
          (Action.MacroRef r) =
        [ValidationIssue.new
          (("devices." ++ dname) ++ ".pages[" ++ toString pIdx ++ "].widgets." ++ w.id)
          ("References macro `" ++ r ++ "` that is not marked ready and will not be compiled")
          Severity.Warning] ∧
      ∃ issue ∈ validate_config cfg source,
        issue.path =
          ("devices." ++ dname) ++ ".pages[" ++ toString pIdx ++ "].widgets." ++ w.id ∧
        issue.message =
          "References macro `" ++ r ++ "` that is not marked ready and will not be compiled" ∧
        issue.severity = Severity.Warning) := by
  constructor
  · intro r ha hmiss
    have heq : widgetActionCheck cfg
        (("devices." ++ dname) ++ ".pages[" ++ toString pIdx ++ "].widgets." ++ w.id)
        (Action.MacroRef r) =
      [ValidationIssue.new
        (("devices." ++ dname) ++ ".pages[" ++ toString pIdx ++ "].widgets." ++ w.id)
        ("References undefined macro `" ++ r ++ "`") Severity.Error] := by
      simp [widgetActionCheck, hmiss]
    refine ⟨heq, ?_⟩
    have hact : ValidationIssue.new
        (("devices." ++ dname) ++ ".pages[" ++ toString pIdx ++ "].widgets." ++ w.id)
        ("References undefined macro `" ++ r ++ "`") Severity.Error ∈
        widgetActionCheck cfg
          (("devices." ++ dname) ++ ".pages[" ++ toString pIdx ++ "].widgets." ++ w.id)
          (Action.MacroRef r) := by
      rw [heq]
      exact List.mem_singleton.mpr rfl
    have hmemv := mem_validate_config_of_mem_devicesCheck cfg source _
      (mem_devicesCheck_of_pages cfg cfg.devices [] dname dev _ hdev
        (mem_pagesCheck_of_page cfg _ dev.pages pIdx page hpage _
          (mem_widgetsCheck_of_action cfg _ pIdx page.widgets [] w _ _ hw ha hact)))
    exact ⟨_, hmemv, rfl, rfl, rfl⟩
  · intro r mac ha hlook hstat
    have hcontains : hmContains cfg.macros r = true := by
      simp [hmContains, hlook]
    have hne : (mac.status != MacroStatus.Ready) = true := by
      cases hs : mac.status with
      | Draft => rfl
      | Ready => exact absurd hs hstat
    have heq : widgetActionCheck cfg
        (("devices." ++ dname) ++ ".pages[" ++ toString pIdx ++ "].widgets." ++ w.id)
        (Action.MacroRef r) =
      [ValidationIssue.new
        (("devices." ++ dname) ++ ".pages[" ++ toString pIdx ++ "].widgets." ++ w.id)
        ("References macro `" ++ r ++ "` that is not marked ready and will not be compiled")
        Severity.Warning] := by
      simp [widgetActionCheck, hcontains, hlook, hne]
    refine ⟨heq, ?_⟩
    have hact : ValidationIssue.new
        (("devices." ++ dname) ++ ".pages[" ++ toString pIdx ++ "].widgets." ++ w.id)
        ("References macro `" ++ r ++ "` that is not marked ready and will not be compiled")
        Severity.Warning ∈
        widgetActionCheck cfg
          (("devices." ++ dname) ++ ".pages[" ++ toString pIdx ++ "].widgets." ++ w.id)
          (Action.MacroRef r) := by
      rw [heq]
      exact List.mem_singleton.mpr rfl
    have hmemv := mem_validate_config_of_mem_devicesCheck cfg source _
      (mem_devicesCheck_of_pages cfg cfg.devices [] dname dev _ hdev
        (mem_pagesCheck_of_page cfg _ dev.pages pIdx page hpage _
          (mem_widgetsCheck_of_action cfg _ pIdx page.widgets [] w _ _ hw ha hact)))
    exact ⟨_, hmemv, rfl, rfl, rfl⟩

/-- Witness for C7: the draft-wired and ghost-wired widgets of the
concrete config. -/
theorem C7_witness :
    (∃ issue ∈ validate_config widgetRefCfg "src",
      issue.path =
        ("devices." ++ "controller") ++ ".pages[" ++ toString 0 ++ "].widgets." ++
          widgetToGhost.id ∧
      issue.message = "References undefined macro `" ++ "ghost" ++ "`" ∧
      issue.severity = Severity.Error) ∧
    (∃ issue ∈ validate_config widgetRefCfg "src",
      issue.path =
        ("devices." ++ "controller") ++ ".pages[" ++ toString 0 ++ "].widgets." ++
          widgetToDraft.id ∧
      issue.message =
        "References macro `" ++ "draft_macro" ++
          "` that is not marked ready and will not be compiled" ∧
      issue.severity = Severity.Warning) := by
  constructor
  · exact ((C7_widget_macro_refs widgetRefCfg "src" "controller"
      { hardware_id := some "usb:test", pages := [pageMain] } 0 pageMain widgetToGhost
      (by decide) (by decide) (by decide)).1 "ghost" rfl (by decide)).2
  · exact ((C7_widget_macro_refs widgetRefCfg "src" "controller"
      { hardware_id := some "usb:test", pages := [pageMain] } 0 pageMain widgetToDraft
      (by decide) (by decide) (by decide)).2 "draft_macro" draftMacro rfl (by decide)
      (by decide)).2

/-! ## Duplicate trigger notes: claim C8 -/

theorem macrosCheck_append (l1 l2 : List (String × Macro)) :
    ∀ nm, macrosCheck nm (l1 ++ l2) =
      macrosCheck nm l1 ++ macrosCheck (noteMapAfter nm l1) l2 := by
  induction l1 with
  | nil => intro nm; rfl
  | cons p rest ih =>
    intro nm
    show (macroTriggerCheck nm p.1 p.2).2 ++ macroStepsCheck p.1 p.2 ++
        macrosCheck (macroTriggerCheck nm p.1 p.2).1 (rest ++ l2) =
      ((macroTriggerCheck nm p.1 p.2).2 ++ macroStepsCheck p.1 p.2 ++
        macrosCheck (macroTriggerCheck nm p.1 p.2).1 rest) ++
      macrosCheck (noteMapAfter (macroTriggerCheck nm p.1 p.2).1 rest) l2
    rw [ih, ← List.append_assoc]

theorem noteMapAfter_append (l1 l2 : List (String × Macro)) :
    ∀ nm, noteMapAfter nm (l1 ++ l2) = noteMapAfter (noteMapAfter nm l1) l2 := by
  induction l1 with
  | nil => intro nm; rfl
  | cons p rest ih => intro nm; exact ih _

theorem macroTriggerCheck_fst_no_trigger (nm : List (Nat × String)) (name : String)
    (m : Macro) (htr : m.trigger = none) : (macroTriggerCheck nm name m).1 = nm := by
  simp only [macroTriggerCheck, htr]
  split <;> rfl

theorem macroTriggerCheck_fst_out_of_range (nm : List (Nat × String)) (name : String)
    (m : Macro) (num : Nat)
    (htr : m.trigger = some { type := MidiTriggerType.Note, number := num })
    (h127 : 127 < num) : (macroTriggerCheck nm name m).1 = nm := by
  simp [macroTriggerCheck, htr, h127]

theorem macroTriggerCheck_fst_in_range (nm : List (Nat × String)) (name : String)
    (m : Macro) (num : Nat)
    (htr : m.trigger = some { type := MidiTriggerType.Note, number := num })
    (h127 : ¬ 127 < num) : (macroTriggerCheck nm name m).1 = (hmInsert nm num name).2 := by
  simp only [macroTriggerCheck, htr, if_neg h127]
  cases hx : hmLookup nm num <;> simp [hmInsert, hmLookup, hx]

theorem noteMapAfter_isSome_mono (l : List (String × Macro)) :
    ∀ (nm : List (Nat × String)) (n : Nat), (hmLookup nm n).isSome →
      (hmLookup (noteMapAfter nm l) n).isSome := by
  induction l with
  | nil => intro nm n h; exact h
  | cons p rest ih =>
    intro nm n h
    show (hmLookup (noteMapAfter (macroTriggerCheck nm p.1 p.2).1 rest) n).isSome
    refine ih _ n ?_
    cases htr : p.2.trigger with
    | none =>
      rw [macroTriggerCheck_fst_no_trigger nm p.1 p.2 htr]
      exact h
    | some trig =>
      obtain ⟨tt, num⟩ := trig
      cases tt
      by_cases h127 : 127 < num
      · rw [macroTriggerCheck_fst_out_of_range nm p.1 p.2 num htr h127]
        exact h
      · rw [macroTriggerCheck_fst_in_range nm p.1 p.2 num htr h127]
        exact isSome_hmLookup_hmInsert nm num n p.1 h

theorem noteMap_registered (l : List (String × Macro)) :
    ∀ (nm : List (Nat × String)) (name : String) (m : Macro) (num : Nat),
      (name, m) ∈ l →
      m.trigger = some { type := MidiTriggerType.Note, number := num } → num ≤ 127 →
      (hmLookup (noteMapAfter nm l) num).isSome := by
  induction l with
  | nil => intro nm name m num hmem; cases hmem
  | cons p rest ih =>
    intro nm name m num hmem htr hle
    rcases List.mem_cons.mp hmem with he | hrest
    · rw [← he]
      show (hmLookup (noteMapAfter (macroTriggerCheck nm name m).1 rest) num).isSome
      refine noteMapAfter_isSome_mono rest _ num ?_
      rw [macroTriggerCheck_fst_in_range nm name m num htr (not_lt.mpr hle),
        hmLookup_hmInsert_self]
      rfl
    · exact ih _ name m num hrest htr hle

theorem macroTriggerCheck_duplicate (nm : List (Nat × String)) (name : String) (m : Macro)
    (num : Nat) (owner : String)
    (htr : m.trigger = some { type := MidiTriggerType.Note, number := num })
    (h127 : ¬ 127 < num) (hlook : hmLookup nm num = some owner) :
    macroTriggerCheck nm name m =
      ((hmInsert nm num name).2,
       [ValidationIssue.new ("macros." ++ name ++ ".trigger")
         ("Note " ++ toString num ++ " already assigned to macro `" ++ owner ++ "`")
         Severity.Warning]) := by
  simp [macroTriggerCheck, htr, if_neg h127, hmInsert, hlook]

/-- C8: when two macros of the document share a Note trigger number
(0–127), the validator emits a Warning on the later-visited macro at
`macros.<id>.trigger` whose message names the owner registered at that
moment, and afterwards the later-visited macro is the registered owner
of that note as seen by every subsequent macro. -/
theorem C8_duplicate_note_warning (cfg : Config) (source : String)
    (pre post : List (String × Macro)) (nj : String) (mj : Macro) (ni : String) (mi : Macro)
    (num : Nat) (hmacros : cfg.macros = pre ++ (nj, mj) :: post) (hi : (ni, mi) ∈ pre)
    (htri : mi.trigger = some { type := MidiTriggerType.Note, number := num })
    (htrj : mj.trigger = some { type := MidiTriggerType.Note, number := num })
    (hnum : num ≤ 127) :
    ∃ owner, hmLookup (noteMapAfter [] pre) num = some owner ∧
      (∃ issue ∈ validate_config cfg source,
        issue.path = "macros." ++ nj ++ ".trigger" ∧
        issue.severity = Severity.Warning ∧
        issue.message =
          "Note " ++ toString num ++ " already assigned to macro `" ++ owner ++ "`") ∧
      hmLookup (noteMapAfter [] (pre ++ [(nj, mj)])) num = some nj := by
  have hreg := noteMap_registered pre [] ni mi num hi htri hnum
  obtain ⟨owner, howner⟩ := Option.isSome_iff_exists.mp hreg
  have h127 : ¬ 127 < num := not_lt.mpr hnum
  have hdup := macroTriggerCheck_duplicate (noteMapAfter [] pre) nj mj num owner htrj
    h127 howner
  refine ⟨owner, howner, ?_, ?_⟩
  · have hmem : ValidationIssue.new ("macros." ++ nj ++ ".trigger")
        ("Note " ++ toString num ++ " already assigned to macro `" ++ owner ++ "`")
        Severity.Warning ∈ macrosCheck [] cfg.macros := by
      rw [hmacros, macrosCheck_append]
      refine List.mem_append_right _ ?_
      show _ ∈ (macroTriggerCheck (noteMapAfter [] pre) nj mj).2 ++ macroStepsCheck nj mj ++
        macrosCheck (macroTriggerCheck (noteMapAfter [] pre) nj mj).1 post
      refine List.mem_append_left _ (List.mem_append_left _ ?_)
      rw [hdup]
      exact List.mem_singleton.mpr rfl
    exact ⟨_, mem_validate_config_of_mem_macrosCheck cfg source _ hmem, rfl, rfl, rfl⟩
  · rw [noteMapAfter_append]
    show hmLookup (macroTriggerCheck (noteMapAfter [] pre) nj mj).1 num = some nj
    rw [macroTriggerCheck_fst_in_range _ nj mj num htrj h127]
    exact hmLookup_hmInsert_self _ _ _

/-- Witness for C8: two Ready macros both on note 60. -/
theorem C8_witness :
    ∃ owner, hmLookup (noteMapAfter [] [("a", readyMacro)]) 60 = some owner ∧
      (∃ issue ∈ validate_config cfgOrderAB "src",
        issue.path = "macros." ++ "b" ++ ".trigger" ∧
        issue.severity = Severity.Warning ∧
        issue.message =
          "Note " ++ toString 60 ++ " already assigned to macro `" ++ owner ++ "`") ∧
      hmLookup (noteMapAfter [] ([("a", readyMacro)] ++ [("b", clashMacro)])) 60 = some "b" :=
  C8_duplicate_note_warning cfgOrderAB "src" [("a", readyMacro)] [] "b" clashMacro
    "a" readyMacro 60 rfl (by decide) (by decide) (by decide) (by decide)

/-! ## Runtime-safe bundles: claim C9 -/

theorem trigger_range_issue_mem (cfg : Config) (name : String) (m : Macro) (num : Nat)
    (hmem : (name, m) ∈ cfg.macros)
    (htr : m.trigger = some { type := MidiTriggerType.Note, number := num })
    (h127 : 127 < num) :
    ValidationIssue.new ("macros." ++ name ++ ".trigger")
      "Note trigger number must be between 0 and 127"
      (adjust_severity_for_draft m.status Severity.Error) ∈ macrosCheck [] cfg.macros :=
  mem_macrosCheck_of_trigger_all cfg.macros [] name m _ hmem
    (fun nm2 => by simp [macroTriggerCheck, htr, h127])

theorem no_error_of_build_ok (config : Config) (source : String)
    (hany : (validate_config config source).any
      (fun i => i.severity == Severity.Error) = false) :
    ∀ i ∈ validate_config config source, i.severity ≠ Severity.Error := by
  intro i hi hsev
  have : (validate_config config source).any (fun j => j.severity == Severity.Error) = true :=
    List.any_eq_true.mpr ⟨i, hi, by simp [hsev]⟩
  rw [hany] at this
  cases this

/-- C9: every macro entry of a successfully built bundle is
runtime-safe: its trigger note (if any) is at most 127, every
keystroke step lists at least one key and no whitespace-only key, and
every pause is strictly positive — a Ready macro violating any of
these produces an Error diagnostic, which aborts the build. -/
theorem C9_bundle_runtime_safe (config : Config) (source : String) (now : Nat)
    (output : BuildOutput) (hok : build_from_config config source now = Except.ok output) :
    ∀ entry ∈ output.bundle.macros,
      (∀ trig : CacheFmt.MidiTrigger, entry.trigger = some trig → trig.number ≤ 127) ∧
      (∀ keys : List String, CacheFmt.MacroStep.Keystroke keys ∈ entry.steps →
        keys ≠ [] ∧ ∀ k ∈ keys, strTrim k ≠ "") ∧
      (∀ ms : Nat, CacheFmt.MacroStep.Pause ms ∈ entry.steps → 0 < ms) := by
  obtain ⟨hany, ho⟩ := build_from_config_ok config source now output hok
  have hnoerr := no_error_of_build_ok config source hany
  subst ho
  intro entry hentry
  simp only [assemble_bundle] at hentry
  obtain ⟨p, hpfilter, rfl⟩ := List.mem_map.mp hentry
  have hpmem : p ∈ config.macros := List.mem_of_mem_filter hpfilter
  have hready : p.2.status = MacroStatus.Ready := by
    have := List.of_mem_filter hpfilter
    simpa using this
  have hadj : adjust_severity_for_draft p.2.status Severity.Error = Severity.Error := by
    rw [hready]
    rfl
  refine ⟨?_, ?_, ?_⟩
  · intro trig htrig
    by_contra hgt
    have h127 : 127 < trig.number := not_le.mp hgt
    have : (toMacroEntry p).trigger = p.2.trigger.map convert_trigger := rfl
    rw [this] at htrig
    obtain ⟨trig0, htrig0, hconv⟩ := Option.map_eq_some'.mp htrig
    obtain ⟨tt, num⟩ := trig0
    cases tt
    have hnum : trig.number = num := by
      rw [← hconv]
      rfl
    have hissue := trigger_range_issue_mem config p.1 p.2 num
      (by simpa using hpmem) htrig0 (hnum ▸ h127)
    refine hnoerr _ (mem_validate_config_of_mem_macrosCheck config source _ hissue) ?_
    show adjust_severity_for_draft p.2.status Severity.Error = Severity.Error
    exact hadj
  · intro keys hkeys
    by_contra hbad
    have hmemstep : MacroStep.Keystroke keys ∈ p.2.steps := by
      have : (toMacroEntry p).steps = p.2.steps.map convert_macro_step := rfl
      rw [this] at hkeys
      obtain ⟨step0, hstep0, hconv⟩ := List.mem_map.mp hkeys
      have : step0 = MacroStep.Keystroke keys := by
        cases step0 with
        | Keystroke ks => simpa [convert_macro_step] using hconv
        | Pause ms2 => simp [convert_macro_step] at hconv
      exact this ▸ hstep0
    obtain ⟨idx, hidx⟩ := List.mem_iff_getElem?.mp hmemstep
    have hinv : (keys.isEmpty || keys.any (fun k => (strTrim k).isEmpty)) = true := by
      rw [not_and_or] at hbad
      rcases hbad with hnil | hws
      · have : keys = [] := not_not.mp hnil
        simp [this]
      · push_neg at hws
        obtain ⟨k, hk, hkeq⟩ := hws
        refine Bool.or_eq_true_iff.mpr (Or.inr ?_)
        exact List.any_eq_true.mpr ⟨k, hk, (String.isEmpty_iff (strTrim k)).mpr hkeq⟩
    have hissue := stepIssue_mem_macroStepsCheck_keystroke p.1 p.2 idx keys hidx hinv
    refine hnoerr _ (mem_validate_config_of_mem_macrosCheck config source _
      (mem_macrosCheck_of_mem_steps config.macros [] p.1 p.2 _ (by simpa using hpmem)
        hissue)) ?_
    show adjust_severity_for_draft p.2.status Severity.Error = Severity.Error
    exact hadj
  · intro ms hms
    by_contra hzero
    have hms0 : ms = 0 := Nat.eq_zero_of_not_pos hzero
    subst hms0
    have hmemstep : MacroStep.Pause 0 ∈ p.2.steps := by
      have : (toMacroEntry p).steps = p.2.steps.map convert_macro_step := rfl
      rw [this] at hms
      obtain ⟨step0, hstep0, hconv⟩ := List.mem_map.mp hms
      have : step0 = MacroStep.Pause 0 := by
        cases step0 with
        | Keystroke ks => simp [convert_macro_step] at hconv
        | Pause ms2 => simpa [convert_macro_step] using hconv
      exact this ▸ hstep0
    obtain ⟨idx, hidx⟩ := List.mem_iff_getElem?.mp hmemstep
    have hissue := stepIssue_mem_macroStepsCheck_pause p.1 p.2 idx hidx
    refine hnoerr _ (mem_validate_config_of_mem_macrosCheck config source _
      (mem_macrosCheck_of_mem_steps config.macros [] p.1 p.2 _ (by simpa using hpmem)
        hissue)) ?_
    show adjust_severity_for_draft p.2.status Severity.Error = Severity.Error
    exact hadj

/-- Witness for C9 at the Ready/Draft config, instantiated at its one
bundle entry. -/
theorem C9_witness :
    (∀ trig : CacheFmt.MidiTrigger,
      (toMacroEntry ("ready", readyMacro)).trigger = some trig → trig.number ≤ 127) ∧
    (∀ keys : List String,
      CacheFmt.MacroStep.Keystroke keys ∈ (toMacroEntry ("ready", readyMacro)).steps →
      keys ≠ [] ∧ ∀ k ∈ keys, strTrim k ≠ "") ∧
    (∀ ms : Nat,
      CacheFmt.MacroStep.Pause ms ∈ (toMacroEntry ("ready", readyMacro)).steps → 0 < ms) :=
  C9_bundle_runtime_safe readyDraftCfg "s" 7
    { bundle := assemble_bundle readyDraftCfg "s" 7
      diagnostics := validate_config readyDraftCfg "s" } (by rfl)
    (toMacroEntry ("ready", readyMacro)) (by decide)

/-! ## Determinism of compilation: claim C2 -/

theorem mergeSort_by_key_eq (d1 d2 : List (String × Device))
    (hperm : List.Perm d1 d2) (hnd : (d1.map Prod.fst).Nodup) :
    d1.mergeSort (fun a b => a.1 ≤ b.1) = d2.mergeSort (fun a b => a.1 ≤ b.1) := by
  haveI : IsAntisymm (String × Device) (fun a b => a.1 < b.1) :=
    ⟨fun a b hab hba => absurd hba (lt_asymm hab)⟩
  have htrans : ∀ (a b c : String × Device),
      decide (a.1 ≤ b.1) = true → decide (b.1 ≤ c.1) = true →
      decide (a.1 ≤ c.1) = true := by
    intro a b c hab hbc
    simp only [decide_eq_true_eq] at *
    exact le_trans hab hbc
  have htotal : ∀ (a b : String × Device),
      (decide (a.1 ≤ b.1) || decide (b.1 ≤ a.1)) = true := by
    intro a b
    simp only [Bool.or_eq_true, decide_eq_true_eq]
    exact le_total a.1 b.1
  have hsortedLt : ∀ (d : List (String × Device)), (d.map Prod.fst).Nodup →
      (d.mergeSort (fun a b => a.1 ≤ b.1)).Pairwise (fun a b => a.1 < b.1) := by
    intro d hn
    have hple : (d.mergeSort (fun a b => a.1 ≤ b.1)).Pairwise
        (fun a b => decide (a.1 ≤ b.1) = true) :=
      List.sorted_mergeSort htrans htotal d
    have hkeys : ((d.mergeSort (fun a b => a.1 ≤ b.1)).map Prod.fst).Nodup :=
      (((List.mergeSort_perm d (fun a b => a.1 ≤ b.1)).map Prod.fst).symm).nodup hn
    have hpn : (d.mergeSort (fun a b => a.1 ≤ b.1)).Pairwise (fun a b => a.1 ≠ b.1) :=
      List.pairwise_map.mp hkeys
    refine (hple.and hpn).imp ?_
    intro a b hab
    exact lt_of_le_of_ne (by simpa using hab.1) hab.2
  have hnd2 : (d2.map Prod.fst).Nodup := (hperm.map Prod.fst).nodup hnd
  have hp : List.Perm (d1.mergeSort (fun a b => a.1 ≤ b.1))
      (d2.mergeSort (fun a b => a.1 ≤ b.1)) :=
    ((List.mergeSort_perm d1 _).trans hperm).trans (List.mergeSort_perm d2 _).symm
  exact List.eq_of_perm_of_sorted hp (hsortedLt d1 hnd) (hsortedLt d2 hnd2)

/-- Counterexample to C2 as stated.  `cfgOrderAB` and `cfgOrderBA`
present the same parsed two-macro document (`SameParsedMap`): they are
the two iteration orders the `macros : HashMap<String, Macro>` may
expose, and the std HashMap randomizes its order per instance, so two
calls of `build_from_str` on the one text can see either.  The
assembled bundles agree on the whole header (hash included) and are
built at the same timestamp, yet their macro lists differ — the
serialized outputs differ beyond the timestamp, refuting "the same
macro entries in the same order". -/
theorem C2_counterexample :
    SameParsedMap cfgOrderAB cfgOrderBA ∧
    (assemble_bundle cfgOrderAB "src" 0).header = (assemble_bundle cfgOrderBA "src" 0).header ∧
    (assemble_bundle cfgOrderAB "src" 0).macros ≠ (assemble_bundle cfgOrderBA "src" 0).macros :=
  ⟨by decide, rfl, by decide⟩

/-- C2 amended: two compilations of configs presenting the same parsed
document (same version and map contents, any iteration orders) agree
on the header version and source hash and produce identical device
lists (devices are sorted by id); their macro lists hold the same
entries but only up to permutation, and `generated_at` follows the
clock.  Byte-identical output is guaranteed only up to the order of
the macro list and the timestamp. -/
theorem C2_same_map_bundle_agreement (c1 c2 : Config) (source : String) (now1 now2 : Nat)
    (hsame : SameParsedMap c1 c2) (hnd : (c1.devices.map Prod.fst).Nodup) :
    (assemble_bundle c1 source now1).header.version =
      (assemble_bundle c2 source now2).header.version ∧
    (assemble_bundle c1 source now1).header.source_hash =
      (assemble_bundle c2 source now2).header.source_hash ∧
    (assemble_bundle c1 source now1).devices = (assemble_bundle c2 source now2).devices ∧
    List.Perm (assemble_bundle c1 source now1).macros
      (assemble_bundle c2 source now2).macros := by
  obtain ⟨hv, hdev, hmac, hscr⟩ := hsame
  refine ⟨rfl, rfl, ?_, ?_⟩
  · show convert_devices c1.devices = convert_devices c2.devices
    unfold convert_devices
    rw [mergeSort_by_key_eq c1.devices c2.devices hdev hnd]
  · show List.Perm
      ((c1.macros.filter (fun p => p.2.status == MacroStatus.Ready)).map toMacroEntry)
      ((c2.macros.filter (fun p => p.2.status == MacroStatus.Ready)).map toMacroEntry)
    exact (hmac.filter _).map _

/-- Witness for C2's amended statement at the two concrete iteration
orders. -/
theorem C2_witness :
    (assemble_bundle cfgOrderAB "src" 0).header.version =
      (assemble_bundle cfgOrderBA "src" 3).header.version ∧
    (assemble_bundle cfgOrderAB "src" 0).header.source_hash =
      (assemble_bundle cfgOrderBA "src" 3).header.source_hash ∧
    (assemble_bundle cfgOrderAB "src" 0).devices = (assemble_bundle cfgOrderBA "src" 3).devices ∧
    List.Perm (assemble_bundle cfgOrderAB "src" 0).macros
      (assemble_bundle cfgOrderBA "src" 3).macros :=
  C2_same_map_bundle_agreement cfgOrderAB cfgOrderBA "src" 0 3 (by decide) (by decide)

/-! ## Duplicate hardware ids: claim C6 -/

theorem str_ne_of_head (s t : String) (h : s.data.head? ≠ t.data.head?) : s ≠ t :=
  fun e => h (by rw [e])

theorem head_data_append (p a : String) (c : Char) (h : p.data.head? = some c) :
    (p ++ a).data.head? = some c := by
  rw [String.data_append]
  cases hd : p.data with
  | nil => rw [hd] at h; cases h
  | cons x xs =>
    rw [hd] at h
    simpa using h

theorem str_ne_of_getElem (s t : String) (n : Nat) (h : s.data[n]? ≠ t.data[n]?) : s ≠ t :=
  fun e => h (by rw [e])

theorem strAppend_getElem (p a : String) (n : Nat) (c : Char) (h : p.data[n]? = some c) :
    (p ++ a).data[n]? = some c := by
  have hn : n < p.data.length := by
    by_contra hge
    rw [List.getElem?_eq_none (le_of_not_lt hge)] at h
    cases h
  rw [String.data_append, List.getElem?_append_left hn]
  exact h

theorem dupHwMsg_zero (a b : String) :
    ("Duplicate hardware_id `" ++ a ++ "` also used by `" ++ b ++ "`").data[0]? = some 'D' :=
  strAppend_getElem _ _ _ _ (strAppend_getElem _ _ _ _ (strAppend_getElem _ _ _ _
    (strAppend_getElem _ _ _ _ (by decide))))

theorem dupHwMsg_ten (a b : String) :
    ("Duplicate hardware_id `" ++ a ++ "` also used by `" ++ b ++ "`").data[10]? = some 'h' :=
  strAppend_getElem _ _ _ _ (strAppend_getElem _ _ _ _ (strAppend_getElem _ _ _ _
    (strAppend_getElem _ _ _ _ (by decide))))

theorem widgetActionCheck_msg (cfg : Config) (wpath : String) (a : Action) :
    ∀ i ∈ widgetActionCheck cfg wpath a, i.message.data[0]? = some 'R' := by
  intro i h
  cases a with
  | MacroRef r =>
    have h2 : i ∈
        (if !(hmContains cfg.macros r) then
          [ValidationIssue.new wpath ("References undefined macro `" ++ r ++ "`")
            Severity.Error]
        else
          match hmLookup cfg.macros r with
          | some mac =>
            if mac.status != MacroStatus.Ready then
              [ValidationIssue.new wpath
                ("References macro `" ++ r ++
                  "` that is not marked ready and will not be compiled")
                Severity.Warning]
            else []
          | none => []) := h
    split at h2
    · rcases List.mem_singleton.mp h2 with rfl
      exact strAppend_getElem _ _ _ _ (strAppend_getElem _ _ _ _ (by decide))
    · rcases hlk : hmLookup cfg.macros r with _ | mac <;> rw [hlk] at h2
      · exact absurd h2 (List.not_mem_nil i)
      · have h3 : i ∈
            (if mac.status != MacroStatus.Ready then
              [ValidationIssue.new wpath
                ("References macro `" ++ r ++
                  "` that is not marked ready and will not be compiled")
                Severity.Warning]
            else []) := h2
        split at h3
        · rcases List.mem_singleton.mp h3 with rfl
          exact strAppend_getElem _ _ _ _ (strAppend_getElem _ _ _ _ (by decide))
        · cases h3
  | ScriptRef r =>
    have h2 : i ∈
        (if !(hmContains cfg.scripts r) then
          [ValidationIssue.new wpath ("References undefined script `" ++ r ++ "`")
            Severity.Error]
        else []) := h
    split at h2
    · rcases List.mem_singleton.mp h2 with rfl
      exact strAppend_getElem _ _ _ _ (strAppend_getElem _ _ _ _ (by decide))
    · cases h2

theorem widgetsCheck_msg (cfg : Config) (path : String) (pIdx : Nat)
    (widgets : List Widget) :
    ∀ (seen : List String) (i : ValidationIssue),
      i ∈ widgetsCheck cfg path pIdx seen widgets →
      i.message = "Duplicate widget id within page" ∨ i.message.data[0]? = some 'R' := by
  induction widgets with
  | nil => intro seen i h; cases h
  | cons w rest ih =>
    intro seen i h
    have h3 : i ∈
        (if seen.contains w.id then
          [ValidationIssue.new (path ++ ".pages[" ++ toString pIdx ++ "].widgets." ++ w.id)
            "Duplicate widget id within page" Severity.Error]
        else []) ++
        (match w.action with
         | some action => widgetActionCheck cfg
             (path ++ ".pages[" ++ toString pIdx ++ "].widgets." ++ w.id) action
         | none => []) ++
        widgetsCheck cfg path pIdx (w.id :: seen) rest := h
    rcases List.mem_append.mp h3 with h12 | hrest
    · rcases List.mem_append.mp h12 with h1 | h2
      · split at h1
        · rcases List.mem_singleton.mp h1 with rfl
          exact Or.inl rfl
        · cases h1
      · rcases ha : w.action with _ | act <;> rw [ha] at h2
        · cases h2
        · exact Or.inr (widgetActionCheck_msg cfg _ act i h2)
    · exact ih (w.id :: seen) i hrest

theorem pagesCheck_msg (cfg : Config) (path : String) (pages : List Page) :
    ∀ i ∈ pagesCheck cfg path pages,
      i.message = "Duplicate widget id within page" ∨ i.message.data[0]? = some 'R' := by
  intro i h
  unfold pagesCheck at h
  obtain ⟨lst, hl, hi⟩ := List.mem_flatten.mp h
  obtain ⟨q, -, rfl⟩ := List.mem_map.mp hl
  exact widgetsCheck_msg cfg path q.1 q.2.widgets [] i hi

theorem macroTriggerCheck_msg (nm : List (Nat × String)) (name : String) (m : Macro) :
    ∀ i ∈ (macroTriggerCheck nm name m).2,
      i.message.data[0]? = some 'N' ∨ i.message.data[0]? = some 'R' := by
  intro i h
  unfold macroTriggerCheck at h
  cases htr : m.trigger with
  | none =>
    rw [htr] at h
    dsimp only at h
    split at h
    · rcases List.mem_singleton.mp h with rfl
      exact Or.inr rfl
    · cases h
  | some trig =>
    obtain ⟨tt, num⟩ := trig
    cases tt
    rw [htr] at h
    dsimp only at h
    split at h
    · rcases List.mem_singleton.mp h with rfl
      exact Or.inl rfl
    · rcases hlk : hmLookup nm num with _ | owner <;>
        simp only [hmInsert, hlk] at h
      · cases h
      · rcases List.mem_singleton.mp h with rfl
        refine Or.inl ?_
        exact strAppend_getElem _ _ _ _ (strAppend_getElem _ _ _ _
          (strAppend_getElem _ _ _ _ (strAppend_getElem _ _ _ _ (by decide))))

theorem macroStepsCheck_msg (name : String) (m : Macro) :
    ∀ i ∈ macroStepsCheck name m,
      i.message.data[0]? = some 'K' ∨ i.message.data[0]? = some 'P' := by
  intro i h
  unfold macroStepsCheck at h
  obtain ⟨lst, hl, hi⟩ := List.mem_flatten.mp h
  obtain ⟨q, -, rfl⟩ := List.mem_map.mp hl
  rcases q with ⟨idx, step⟩
  cases step with
  | Keystroke keys =>
    dsimp only at hi
    split at hi
    · rcases List.mem_singleton.mp hi with rfl
      exact Or.inl rfl
    · cases hi
  | Pause ms =>
    dsimp only at hi
    split at hi
    · rcases List.mem_singleton.mp hi with rfl
      exact Or.inr rfl
    · cases hi

theorem macrosCheck_msg (l : List (String × Macro)) :
    ∀ (nm : List (Nat × String)) (i : ValidationIssue), i ∈ macrosCheck nm l →
      i.message.data[0]? ≠ some 'D' := by
  induction l with
  | nil => intro nm i h; cases h
  | cons p rest ih =>
    intro nm i h
    have h3 : i ∈ (macroTriggerCheck nm p.1 p.2).2 ++ macroStepsCheck p.1 p.2 ++
        macrosCheck (macroTriggerCheck nm p.1 p.2).1 rest := h
    rcases List.mem_append.mp h3 with h12 | hrest
    · rcases List.mem_append.mp h12 with h1 | h2
      · rcases macroTriggerCheck_msg nm p.1 p.2 i h1 with hc | hc <;> rw [hc] <;> decide
      · rcases macroStepsCheck_msg p.1 p.2 i h2 with hc | hc <;> rw [hc] <;> decide
    · exact ih _ i hrest

theorem scriptsCheck_msg (l : List (String × Script)) :
    ∀ i ∈ scriptsCheck l, i.message = "Script body must not be empty" := by
  intro i h
  unfold scriptsCheck at h
  obtain ⟨lst, hl, hi⟩ := List.mem_flatten.mp h
  obtain ⟨s, -, rfl⟩ := List.mem_map.mp hl
  rcases s with ⟨sname, sbody⟩
  cases sbody with
  | Body body =>
    dsimp only at hi
    split at hi
    · rcases List.mem_singleton.mp hi with rfl
      rfl
    · cases hi
  | Inline body =>
    dsimp only at hi
    split at hi
    · rcases List.mem_singleton.mp hi with rfl
      rfl
    · cases hi

theorem versionCheck_msg (cfg : Config) :
    ∀ i ∈ versionCheck cfg, i.message.data[0]? = some 'U' := by
  intro i h
  unfold versionCheck at h
  split at h
  · rcases List.mem_singleton.mp h with rfl
    exact strAppend_getElem _ _ _ _ (strAppend_getElem _ _ _ _ (by decide))
  · cases h

theorem macroTriggerCheck_snd_path (nm : List (Nat × String)) (name : String) (m : Macro) :
    ∀ i ∈ (macroTriggerCheck nm name m).2, i.path = ("macros." ++ name) ++ ".trigger" := by
  intro i h
  unfold macroTriggerCheck at h
  cases htr : m.trigger with
  | none =>
    rw [htr] at h
    dsimp only at h
    split at h
    · rcases List.mem_singleton.mp h with rfl
      rfl
    · cases h
  | some trig =>
    obtain ⟨tt, num⟩ := trig
    cases tt
    rw [htr] at h
    dsimp only at h
    split at h
    · rcases List.mem_singleton.mp h with rfl
      rfl
    · rcases hlk : hmLookup nm num with _ | owner <;>
        simp only [hmInsert, hlk] at h
      · cases h
      · rcases List.mem_singleton.mp h with rfl
        rfl

theorem macrosCheck_path_shape (l : List (String × Macro)) :
    ∀ (nm : List (Nat × String)) (i : ValidationIssue), i ∈ macrosCheck nm l →
      ∃ t, i.path = "macros." ++ t := by
  induction l with
  | nil => intro nm i h; cases h
  | cons p rest ih =>
    intro nm i h
    have h3 : i ∈ (macroTriggerCheck nm p.1 p.2).2 ++ macroStepsCheck p.1 p.2 ++
        macrosCheck (macroTriggerCheck nm p.1 p.2).1 rest := h
    rcases List.mem_append.mp h3 with h12 | hrest
    · rcases List.mem_append.mp h12 with h1 | h2
      · refine ⟨p.1 ++ ".trigger", ?_⟩
        rw [macroTriggerCheck_snd_path nm p.1 p.2 i h1]
        exact String.append_assoc _ _ _
      · obtain ⟨-, idx, hpath⟩ := macroStepsCheck_shape p.1 p.2 i h2
        refine ⟨p.1 ++ (".steps[" ++ (toString idx ++ "]")), ?_⟩
        rw [hpath]
        simp [String.append_assoc]
    · exact ih _ i hrest

theorem scriptsCheck_path_shape (l : List (String × Script)) :
    ∀ i ∈ scriptsCheck l, ∃ t, i.path = "scripts." ++ t := by
  intro i h
  unfold scriptsCheck at h
  obtain ⟨lst, hl, hi⟩ := List.mem_flatten.mp h
  obtain ⟨s, -, rfl⟩ := List.mem_map.mp hl
  rcases s with ⟨sname, sbody⟩
  cases sbody with
  | Body body =>
    dsimp only at hi
    split at hi
    · rcases List.mem_singleton.mp hi with rfl
      exact ⟨sname, rfl⟩
    · cases hi
  | Inline body =>
    dsimp only at hi
    split at hi
    · rcases List.mem_singleton.mp hi with rfl
      exact ⟨sname, rfl⟩
    · cases hi

theorem versionCheck_path (cfg : Config) : ∀ i ∈ versionCheck cfg, i.path = "version" := by
  intro i h
  unfold versionCheck at h
  split at h
  · rcases List.mem_singleton.mp h with rfl
    rfl
  · cases h

/-- Counterexample to C6 as stated.  `cfgDevDecl` lists the two
devices in declaration order (`alpha` declared before `beta`);
`cfgDevIter` presents the same parsed map (`SameParsedMap`) in the
other iteration order, which the randomized `HashMap` may equally
expose to the validator.  Run on that order, the single duplicate
Error is attributed to `devices.alpha.hardware_id` — the
earlier-declared device — and its message names `beta`, refuting
"attributed to the later-declared device". -/
theorem C6_counterexample :
    SameParsedMap cfgDevDecl cfgDevIter ∧
    ((validate_config cfgDevIter "").filter
        (fun i => i.severity == Severity.Error)).map (fun i => (i.path, i.message)) =
      [("devices.alpha.hardware_id", "Duplicate hardware_id `usb:demo` also used by `beta`")] :=
  ⟨by decide, by decide⟩

/-- C6 amended: in a document whose two devices carry identical
non-empty (trimmed) hardware ids — pages, macros and scripts all
arbitrary — `validate_config` emits exactly one diagnostic carrying
the duplication message; it is an Error at
`devices.<second>.hardware_id`, where `<second>` is the device the
map's iteration visits second (not necessarily the later-declared
one), and its message names the first-visited owner. -/
theorem C6_duplicate_hardware_id (cfg : Config) (source : String) (n1 n2 : String)
    (d1 d2 : Device) (h1 h2 : String) (hdevs : cfg.devices = [(n1, d1), (n2, d2)])
    (hw1 : d1.hardware_id = some h1) (hw2 : d2.hardware_id = some h2)
    (heq : strTrim h1 = strTrim h2) (hne : strTrim h2 ≠ "") :
    (validate_config cfg source).filter
        (fun i => i.message ==
          "Duplicate hardware_id `" ++ strTrim h2 ++ "` also used by `" ++ n1 ++ "`") =
      [{ path := ("devices." ++ n2) ++ ".hardware_id"
         message := "Duplicate hardware_id `" ++ strTrim h2 ++ "` also used by `" ++ n1 ++ "`"
         location := find_location source (("devices." ++ n2) ++ ".hardware_id")
         severity := Severity.Error }] := by
  have hne2e : (strTrim h2).isEmpty = false :=
    Bool.eq_false_iff.mpr (fun ht => hne ((String.isEmpty_iff (strTrim h2)).mp ht))
  have hne1e : (strTrim h1).isEmpty = false := by rw [heq]; exact hne2e
  have e1 : deviceHwCheck [] n1 d1 = ([(strTrim h1, n1)], []) := by
    simp [deviceHwCheck, hw1, hne1e, hmInsert, hmErase, hmLookup]
  have e3 : deviceHwCheck [(strTrim h1, n1)] n2 d2 =
      ((hmInsert [(strTrim h1, n1)] (strTrim h2) n2).2,
       [ValidationIssue.new (("devices." ++ n2) ++ ".hardware_id")
         ("Duplicate hardware_id `" ++ strTrim h2 ++ "` also used by `" ++ n1 ++ "`")
         Severity.Error]) := by
    simp [deviceHwCheck, hw2, hne2e, hmInsert, hmLookup, heq]
  have hdevsec : devicesCheck cfg [] cfg.devices =
      [] ++ pagesCheck cfg ("devices." ++ n1) d1.pages ++
        ([ValidationIssue.new (("devices." ++ n2) ++ ".hardware_id")
            ("Duplicate hardware_id `" ++ strTrim h2 ++ "` also used by `" ++ n1 ++ "`")
            Severity.Error] ++
          pagesCheck cfg ("devices." ++ n2) d2.pages ++ []) := by
    rw [hdevs]
    show (deviceHwCheck [] n1 d1).2 ++ pagesCheck cfg ("devices." ++ n1) d1.pages ++
      ((deviceHwCheck (deviceHwCheck [] n1 d1).1 n2 d2).2 ++
        pagesCheck cfg ("devices." ++ n2) d2.pages ++
        devicesCheck cfg (deviceHwCheck (deviceHwCheck [] n1 d1).1 n2 d2).1 []) = _
    rw [e1, e3]
    rfl
  have hvc : validate_config cfg source =
      (versionCheck cfg ++ devicesCheck cfg [] cfg.devices ++ macrosCheck [] cfg.macros ++
        scriptsCheck cfg.scripts).map
        (fun i => { i with location := find_location source i.path }) := rfl
  rw [hvc, hdevsec, List.filter_map]
  have hcomp : ((fun i : ValidationIssue => i.message ==
        "Duplicate hardware_id `" ++ strTrim h2 ++ "` also used by `" ++ n1 ++ "`") ∘
      (fun i : ValidationIssue => { i with location := find_location source i.path })) =
      (fun i : ValidationIssue => i.message ==
        "Duplicate hardware_id `" ++ strTrim h2 ++ "` also used by `" ++ n1 ++ "`") := by
    funext i
    rfl
  rw [hcomp]
  have hv0 : (versionCheck cfg).filter
      (fun i => i.message ==
        "Duplicate hardware_id `" ++ strTrim h2 ++ "` also used by `" ++ n1 ++ "`") = [] := by
    rw [List.filter_eq_nil_iff]
    intro i hi hcontra
    have hmsg : i.message =
        "Duplicate hardware_id `" ++ strTrim h2 ++ "` also used by `" ++ n1 ++ "`" := by
      simpa using hcontra
    refine str_ne_of_getElem i.message _ 0 ?_ hmsg
    rw [versionCheck_msg cfg i hi, dupHwMsg_zero (strTrim h2) n1]
    decide
  have hpnil : ∀ (path : String) (pages : List Page), (pagesCheck cfg path pages).filter
      (fun i => i.message ==
        "Duplicate hardware_id `" ++ strTrim h2 ++ "` also used by `" ++ n1 ++ "`") = [] := by
    intro path pages
    rw [List.filter_eq_nil_iff]
    intro i hi hcontra
    have hmsg : i.message =
        "Duplicate hardware_id `" ++ strTrim h2 ++ "` also used by `" ++ n1 ++ "`" := by
      simpa using hcontra
    rcases pagesCheck_msg cfg path pages i hi with hc | hc
    · refine str_ne_of_getElem i.message _ 10 ?_ hmsg
      rw [hc, dupHwMsg_ten (strTrim h2) n1]
      decide
    · refine str_ne_of_getElem i.message _ 0 ?_ hmsg
      rw [hc, dupHwMsg_zero (strTrim h2) n1]
      decide
  have hm0 : (macrosCheck [] cfg.macros).filter
      (fun i => i.message ==
        "Duplicate hardware_id `" ++ strTrim h2 ++ "` also used by `" ++ n1 ++ "`") = [] := by
    rw [List.filter_eq_nil_iff]
    intro i hi hcontra
    have hmsg : i.message =
        "Duplicate hardware_id `" ++ strTrim h2 ++ "` also used by `" ++ n1 ++ "`" := by
      simpa using hcontra
    refine str_ne_of_getElem i.message _ 0 ?_ hmsg
    rw [dupHwMsg_zero (strTrim h2) n1]
    exact macrosCheck_msg cfg.macros [] i hi
  have hs0 : (scriptsCheck cfg.scripts).filter
      (fun i => i.message ==
        "Duplicate hardware_id `" ++ strTrim h2 ++ "` also used by `" ++ n1 ++ "`") = [] := by
    rw [List.filter_eq_nil_iff]
    intro i hi hcontra
    have hmsg : i.message =
        "Duplicate hardware_id `" ++ strTrim h2 ++ "` also used by `" ++ n1 ++ "`" := by
      simpa using hcontra
    refine str_ne_of_getElem i.message _ 0 ?_ hmsg
    rw [scriptsCheck_msg cfg.scripts i hi, dupHwMsg_zero (strTrim h2) n1]
    decide
  simp only [List.filter_append, hv0, hpnil, hm0, hs0, List.filter_nil, List.nil_append,
    List.append_nil]
  simp [List.filter, ValidationIssue.new]

/-- Witness for C6's amended statement: two concrete devices (each
with a page) sharing a hardware id, visited in a fixed iteration
order. -/
theorem C6_witness :
    (validate_config pagedDupCfg "src").filter
        (fun i => i.message ==
          "Duplicate hardware_id `" ++ strTrim "usb:demo" ++ "` also used by `" ++
            "beta" ++ "`") =
      [{ path := ("devices." ++ "alpha") ++ ".hardware_id"
         message := "Duplicate hardware_id `" ++ strTrim "usb:demo" ++ "` also used by `" ++
           "beta" ++ "`"
         location := find_location "src" (("devices." ++ "alpha") ++ ".hardware_id")
         severity := Severity.Error }] :=
  C6_duplicate_hardware_id pagedDupCfg "src" "beta" "alpha" pagedDevice pagedDevice
    "usb:demo" "usb:demo" rfl rfl rfl rfl (by decide)

/-- Witness for C4: the two-macro config where one macro is a Draft. -/
theorem C4_witness :
    ({ bundle := assemble_bundle readyDraftCfg "s" 7
       diagnostics := validate_config readyDraftCfg "s" } : BuildOutput).bundle.macros =
      [toMacroEntry ("ready", readyMacro)] ∧
    ({ bundle := assemble_bundle readyDraftCfg "s" 7
       diagnostics := validate_config readyDraftCfg "s" } : BuildOutput).bundle.macros.length ≤
      readyDraftCfg.macros.length := by
  have h := C4_bundle_ready_macros readyDraftCfg "s" 7
    { bundle := assemble_bundle readyDraftCfg "s" 7
      diagnostics := validate_config readyDraftCfg "s" }
    (by rfl)
  refine ⟨?_, h.2⟩
  rw [h.1]
  decide

end MidiMacros
